import Mathlib

/-!
# Chain parameters of PRCYCoin (`src/chainparams.cpp`)

A shallow embedding of the chain-parameter registry: the DNS seed host
names, the fixed seed conversion, the checkpoint tables, the three
constructors `CMainParams`, `CTestNetParams`, `CRegTestParams` with their
genesis search loops and assertions, and the selection functions
`Params`, `SelectParams`, `SelectParamsFromCommandLine`.

Conventions.
* `uint256` values are natural numbers; `uint256("...")` is the hexadecimal
  literal it parses.
* `uint32_t` counters wrap modulo `2 ^ 32`, written out explicitly.
* An `assert` that fails ends the run with `Failure.assertion`; a `while`
  loop is run with a step budget and ends with `Failure.fuel` when the
  budget is used up before the loop condition turns false.
* Functions of the repository that live in other files (block hash,
  Merkle tree, compact target decoding, clock, random numbers, command
  line) are fields of `Env`; nothing is assumed about them. Two of them
  are also modelled from the specification, `SetCompact` and
  `checkpointVerify`, for the statements that are about their values.
-/

namespace PRCY

/-! ## Results of runs that may abort -/

/-- Ways a run can end without a value. -/
inductive Failure where
  | assertion
  | fuel
  deriving DecidableEq, Repr

/-- An `assert(c)` statement. -/
def assert (c : Bool) : Except Failure Unit :=
  if c then .ok () else .error .assertion

/-! ## Blocks -/

/-- One element pushed on a `CScript` with `<<`. -/
inductive ScriptItem where
  | int (n : Int)
  | scriptNum (n : Int)
  | bytes (b : List Nat)
  | parseHex (hex : String)
  | op (name : String)
  deriving DecidableEq, Repr

/-- The fields of a transaction input that the constructor touches. -/
structure CTxIn where
  scriptSig : List ScriptItem := []
  deriving DecidableEq, Repr

/-- The fields of a transaction output that the constructor touches. -/
structure CTxOut where
  nValue : Int := 0
  scriptPubKey : List ScriptItem := []
  deriving DecidableEq, Repr

/-- A `CMutableTransaction` as far as the constructor fills it. -/
structure CTransaction where
  vin : List CTxIn := []
  vout : List CTxOut := []
  deriving DecidableEq, Repr

/-- The genesis block: header fields and transaction list. -/
structure CBlock where
  nVersion : Int
  hashPrevBlock : Nat
  hashMerkleRoot : Nat
  nTime : Nat
  nBits : Nat
  nNonce : Nat
  vtx : List CTransaction
  deriving DecidableEq, Repr

/-! ## Seeds -/

/-- A fixed seed record: 16 address bytes and a port. -/
structure SeedSpec6 where
  addr : List Nat
  port : Nat
  deriving DecidableEq, Repr

/-- A peer address: the service built from the seed record, and the
unsigned last-seen time `nTime` of `CAddress`. -/
structure CAddress where
  ip : List Nat
  port : Nat
  nTime : Nat
  deriving DecidableEq, Repr

/-- A DNS seed entry; the third constructor argument defaults to `false`. -/
structure CDNSSeedData where
  name : String
  host : String
  supportsServiceBitsFiltering : Bool := false
  deriving DecidableEq, Repr

/-! ## Checkpoints -/

/-- Checkpoint data: the height-to-hash table in the order it is written,
and the three statistics that follow it. -/
structure CCheckpointData where
  mapCheckpoints : List (Nat × Nat)
  nTimeLastCheckpoint : Nat
  nTransactionsLastCheckpoint : Nat
  fTransactionsPerDay : Nat
  deriving DecidableEq, Repr

/-! ## Networks and the parameter record -/

/-- The enumeration `CBaseChainParams::Network`. -/
inductive Network where
  | MAIN
  | TESTNET
  | REGTEST
  | MAX_NETWORK_TYPES
  deriving DecidableEq, Repr

/-- The array `base58Prefixes`, one entry per `Base58Type`. -/
structure Base58Prefixes where
  PUBKEY_ADDRESS : List Nat
  SCRIPT_ADDRESS : List Nat
  SECRET_KEY : List Nat
  EXT_PUBLIC_KEY : List Nat
  EXT_SECRET_KEY : List Nat
  deriving DecidableEq, Repr

/-- The members of `CChainParams` that the three constructors assign,
together with the table answered by the virtual `Checkpoints()`. -/
structure CChainParams where
  networkID : Network
  strNetworkID : String
  pchMessageStart : List Nat
  nDefaultPort : Nat
  bnProofOfWorkLimit : Nat
  nSubsidyHalvingInterval : Nat
  nMaxReorganizationDepth : Nat
  nEnforceBlockUpgradeMajority : Nat
  nRejectBlockOutdatedMajority : Nat
  nToCheckBlockUpgradeMajority : Nat
  nMinerThreads : Nat
  nTargetTimespan : Nat
  nTargetSpacing : Nat
  nMaturity : Nat
  nMasternodeCountDrift : Nat
  MAX_MONEY : Nat
  nMaxMoneyOut : Nat
  nLastPOWBlock : Nat
  nStartPOABlock : Nat
  nModifierUpdateBlock : Nat
  nPoABlockTime : Nat
  nMinNumPoSBlocks : Nat
  nMaxNumPoSBlocks : Nat
  nSoftForkBlock : Nat
  nPoANewDiff : Nat
  genesis : CBlock
  hashGenesisBlock : Nat
  vSeeds : List CDNSSeedData
  base58Prefixes : Base58Prefixes
  nExtCoinType : Nat
  vFixedSeeds : List CAddress
  fRequireRPCPassword : Bool
  fMiningRequiresPeers : Bool
  fAllowMinDifficultyBlocks : Bool
  fDefaultConsistencyChecks : Bool
  fRequireStandard : Bool
  fMineBlocksOnDemand : Bool
  fSkipProofOfWorkCheck : Bool
  fTestnetToBeDeprecatedFieldRPC : Bool
  fHeadersFirstSyncingActive : Bool
  nPoolMaxTransactions : Nat
  strObfuscationPoolDummyAddress : String
  nStartMasternodePayments : Nat
  nBudget_Fee_Confirmations : Nat
  Checkpoints : CCheckpointData
  deriving DecidableEq, Repr

/-! ## Collaborators defined outside `chainparams.cpp` -/

/-- What the file uses and does not define. `GetTime k` and `GetRand k nMax`
are the values returned by the `k`-th call of the clock and of the random
number generator. `nTimeBits` is the width of the unsigned integer field
`CAddress::nTime`, which `protocol.h` declares as `unsigned int`, 32 bits. -/
structure Env where
  GetHash : CBlock → Nat
  BuildMerkleTree : List CTransaction → Nat
  SetCompact : Nat → Nat
  COIN : Nat
  NODE_NETWORK : Nat
  GetTime : Nat → Int
  GetRand : Nat → Nat → Nat
  nTimeBits : Nat
  pnSeed6_main : List SeedSpec6
  pnSeed6_test : List SeedSpec6
  NetworkIdFromCommandLine : Network

/-! ## `CDNSSeedData::getHost` -/

/-- Digits of `n` in base 16, lowercase, most significant first, as the
conversion `%x` prints an unsigned value. -/
def hexDigits (n : Nat) : String :=
  String.mk (Nat.toDigits 16 n)

/-- The call `strprintf("x%x.%s", bits, host)`. -/
def strprintf_x_dot (bits : Nat) (host : String) : String :=
  "x" ++ hexDigits bits ++ "." ++ host

/-- The method `CDNSSeedData::getHost`. -/
def CDNSSeedData.getHost (NODE_NETWORK : Nat) (d : CDNSSeedData) (requiredServiceBits : Nat) :
    String :=
  if !d.supportsServiceBitsFiltering || requiredServiceBits == NODE_NETWORK then
    d.host
  else
    strprintf_x_dot requiredServiceBits d.host

/-! ## `convertSeed6` -/

/-- The constant `nOneWeek`. -/
def nOneWeek : Int := 7 * 24 * 60 * 60

/-- The value stored by `addr.nTime = GetTime() - GetRand(nOneWeek) - nOneWeek`
when the clock returned `now` and the generator `r`: the 64-bit result is
narrowed to the unsigned field of `bits` bits. -/
def seedTime (bits : Nat) (now : Int) (r : Nat) : Nat :=
  (((now - (r : Int) - nOneWeek) % 2 ^ 64) % 2 ^ bits).toNat

/-- The address `addr` that pass `i` of the `for` loop of `convertSeed6`
builds, when `k` clock and random calls were made before the function was
entered. -/
def seedAddress (env : Env) (k : Nat) (data : Nat → SeedSpec6) (i : Nat) : CAddress :=
  { ip := (data i).addr
    port := (data i).port
    nTime := seedTime env.nTimeBits (env.GetTime (k + i)) (env.GetRand (k + i) nOneWeek.toNat) }

/-- The body of the `for` loop of `convertSeed6` for index `i`. -/
def convertSeed6_body (env : Env) (k : Nat) (data : Nat → SeedSpec6)
    (vSeedsOut : List CAddress) (i : Nat) : List CAddress :=
  vSeedsOut ++ [seedAddress env k data i]

/-- The function `convertSeed6`: `data` is the array behind the pointer,
`count` the number of entries read. -/
def convertSeed6 (env : Env) (k : Nat) (vSeedsOut : List CAddress)
    (data : Nat → SeedSpec6) (count : Nat) : List CAddress :=
  (List.range count).foldl (convertSeed6_body env k data) vSeedsOut

/-- A table of the header `chainparamsseeds.h`, seen through a pointer. -/
def seedArray (table : List SeedSpec6) : Nat → SeedSpec6 :=
  fun i => table.getD i { addr := [], port := 0 }

/-! ## Checkpoint tables -/

/-- The table `mapCheckpoints` of the main network, in the order written. -/
def mapCheckpoints : List (Nat × Nat) :=
  [ (0, 0x000006957e238ff4e6bcf00c8a7d1b3e7249c0a2109b0391d8740821a40c1d8c),
    (500, 0x00214da9b906c7c14558395b9bc88293301e6e5f87a714194079dd651293fadb),
    (561, 0x54872c72e81b34117bc5a6095d6f1b8d85746992d2513d7adc90a2aceed1651e),
    (562, 0x0f00d3a6636c8a265724764da082fdef8106fce7057dfdda94ab6537f7211b4f),
    (14905, 0x6389ecdb851500d9467b41a54d02c58b1542bfc2d5c99339821c89d25135a4b0),
    (17128, 0x98d76615ef96b3ced1d9902715ba432393335b791b2256936883c323f0bb91f4),
    (17133, 0xd9dcec83e8a675db0f7b6d28fde591f494a1b0766f7cb56ea8d8cb95348f835b),
    (17150, 0xbad4dccf8fd86f00d6c215802d39342e4de64e21155b76b38f0182ba7d96edd2),
    (17153, 0x4e63d92ac5209f0a342c2e74098778bbe36324de66734ff41132c7f3db3ad628),
    (18375, 0xc291cf0a7bcd73a91c6f68d28dc6ce9e1acee973fd134f4250c1ee80bf3d0c03),
    (18813, 0xccf401e6fb24f34c105b2f693c2eb75c2ba7a2a4e3ffbbfe152e98ae9806d418),
    (18814, 0xf8092b5c474cc260edb7c378c4f7e2123b007a55018d32f97b9b729f729067ae),
    (19317, 0x0bd530827eff9bdc79893739c02c14c02bb35a39b943eaeeb72e04767e0597a5),
    (19400, 0xcdeebfe4fdeda461ab2025d08248e89b13a1e970c76b91ac2788837c147e6f33),
    (77852, 0xe6ec3ddccfb6bd378ca3cf5cc292c011ec235536a9edbb8c3fdbe17abd921d44),
    (98768, 0x43f42aaba4a1e8f7a4981b7d8620e5967974b0bbdee4ae22e42f14585be3a52f),
    (105629, 0x82ae47c00a0338f33a41b8505162cabaa4740f2187feb07f4ee4bc6138461acb) ]

/-- The checkpoint data `data` of the main network. -/
def data : CCheckpointData :=
  { mapCheckpoints := mapCheckpoints
    nTimeLastCheckpoint := 1614113250
    nTransactionsLastCheckpoint := 219212
    fTransactionsPerDay := 1440 }

/-- The table `mapCheckpointsTestnet`. -/
def mapCheckpointsTestnet : List (Nat × Nat) :=
  [ (0, 0x000001488be8bb442cd72cb737ade49a31de90dbbe5dce36f7d7e07f5dde2b77) ]

/-- The checkpoint data `dataTestnet`. -/
def dataTestnet : CCheckpointData :=
  { mapCheckpoints := mapCheckpointsTestnet
    nTimeLastCheckpoint := 0
    nTransactionsLastCheckpoint := 0
    fTransactionsPerDay := 0 }

/-- The table `mapCheckpointsRegtest`. -/
def mapCheckpointsRegtest : List (Nat × Nat) :=
  [ (0, 0x690cbb5c7ae999de1de49948a3c109d3b15fe4de4297980de8ff0cbfe3c7823a) ]

/-- The checkpoint data `dataRegtest`. -/
def dataRegtest : CCheckpointData :=
  { mapCheckpoints := mapCheckpointsRegtest
    nTimeLastCheckpoint := 0
    nTransactionsLastCheckpoint := 0
    fTransactionsPerDay := 0 }

/-- The heights of a checkpoint table, in table order. -/
def heights (table : List (Nat × Nat)) : List Nat :=
  table.map Prod.fst

/-! ## The genesis search -/

/-- The genesis hash the main constructor compares with and asserts. -/
def hashGenesisMain : Nat :=
  0x000006957e238ff4e6bcf00c8a7d1b3e7249c0a2109b0391d8740821a40c1d8c

/-- The Merkle root the main constructor asserts. -/
def hashMerkleRootMain : Nat :=
  0xcd01f1ca20c22b336f1ee83af9fd8b7facbf42083bf3bed49af045f5cadc9cd4

/-- The genesis hash the testnet constructor compares with and asserts. -/
def hashGenesisTestnet : Nat :=
  0x000001488be8bb442cd72cb737ade49a31de90dbbe5dce36f7d7e07f5dde2b77

/-- The genesis hash the regtest constructor compares with and asserts. -/
def hashGenesisRegtest : Nat :=
  0x690cbb5c7ae999de1de49948a3c109d3b15fe4de4297980de8ff0cbfe3c7823a

/-- One pass through the body of the `while` loop: `++genesis.nNonce`, and
`++genesis.nTime` when the 32-bit nonce has wrapped to zero. -/
def searchStep (genesis : CBlock) : CBlock :=
  let genesis := { genesis with nNonce := (genesis.nNonce + 1) % 2 ^ 32 }
  if genesis.nNonce = 0 then
    { genesis with nTime := (genesis.nTime + 1) % 2 ^ 32 }
  else
    genesis

/-- The loop `while (uint256(genesis.GetHash()) > hashTarget) ...`. The
last argument counts the passes made so far; the result is the block the
loop leaves and the total number of passes. -/
def searchLoop (env : Env) (hashTarget : Nat) : Nat → CBlock → Nat → Except Failure (CBlock × Nat)
  | 0, genesis, passes =>
    if env.GetHash genesis > hashTarget then .error .fuel else .ok (genesis, passes)
  | fuel + 1, genesis, passes =>
    if env.GetHash genesis > hashTarget then
      searchLoop env hashTarget fuel (searchStep genesis) (passes + 1)
    else
      .ok (genesis, passes)

/-- The block `if (genesis.GetHash() != expected) ...` that each of the
three constructors runs on its genesis template: the search is entered
only when the hash differs from the expected one. -/
def searchGenesis (env : Env) (expected : Nat) (fuel : Nat) (genesis : CBlock) :
    Except Failure (CBlock × Nat) :=
  if env.GetHash genesis ≠ expected then
    searchLoop env (env.SetCompact genesis.nBits) fuel genesis 0
  else
    .ok (genesis, 0)

/-! ## `CMainParams` -/

/-- The string `pszTimestamp`. -/
def pszTimestamp : String :=
  "12 January 2021 PRCY Coin Development Team - Privacy is Your Right"

/-- The coinbase transaction `txNew` of the genesis block. -/
def txNew (env : Env) : CTransaction :=
  { vin := [ { scriptSig :=
                [ .int 486604799, .scriptNum 4, .bytes (pszTimestamp.toList.map Char.toNat) ] } ]
    vout := [ { nValue := 0 * (env.COIN : Int)
                scriptPubKey :=
                  [ .parseHex "04b78f63269234b741668d85b57ba11edec2ee20f15719db180d5d6a37c4e9db0c494390fb54925934bc7b29f148a372c00273bbd5c939830d7d2941de6ce44b8b",
                    .op "OP_CHECKSIG" ] } ] }

/-- The assignments of `CMainParams()` up to `genesis.nNonce = 28141687`,
applied to the object `base` that the constructor of `CChainParams` leaves. -/
def CMainParams_template (env : Env) (base : CChainParams) : CChainParams :=
  let vtx := base.genesis.vtx ++ [txNew env]
  { base with
    networkID := .MAIN
    strNetworkID := "main"
    pchMessageStart := [0xf8, 0x8e, 0xa6, 0x90]
    nDefaultPort := 59682
    bnProofOfWorkLimit := (2 ^ 256 - 1 - 0) / 2 ^ 1
    nSubsidyHalvingInterval := 210000
    nMaxReorganizationDepth := 100
    nEnforceBlockUpgradeMajority := 8100
    nRejectBlockOutdatedMajority := 10260
    nToCheckBlockUpgradeMajority := 10800
    nMinerThreads := 0
    nTargetTimespan := 1 * 60
    nTargetSpacing := 1 * 60
    nMaturity := 100
    nMasternodeCountDrift := 20
    MAX_MONEY := 70000000
    nMaxMoneyOut := 70000000 * env.COIN
    nLastPOWBlock := 500
    nStartPOABlock := 560
    nModifierUpdateBlock := 615800
    nPoABlockTime := 60 * 60
    nMinNumPoSBlocks := 59
    nMaxNumPoSBlocks := 120
    nSoftForkBlock := 120000
    nPoANewDiff := 135000
    genesis :=
      { vtx := vtx
        hashPrevBlock := 0
        hashMerkleRoot := env.BuildMerkleTree vtx
        nVersion := 1
        nTime := 1610409600
        nBits := 0x1e0ffff0
        nNonce := 28141687 } }

/-- The twelve DNS seeds pushed by `CMainParams()`. -/
def vSeedsMain : List CDNSSeedData :=
  [ { name := "seed.prcycoin.com", host := "seed.prcycoin.com" },
    { name := "seed1.prcycoin.com", host := "seed1.prcycoin.com" },
    { name := "seed2.prcycoin.com", host := "seed2.prcycoin.com" },
    { name := "seed3.prcycoin.com", host := "seed3.prcycoin.com" },
    { name := "seed4.prcycoin.com", host := "seed4.prcycoin.com" },
    { name := "seed5.prcycoin.com", host := "seed5.prcycoin.com" },
    { name := "vps.prcycoin.com", host := "vps.prcycoin.com" },
    { name := "vps1.prcycoin.com", host := "vps1.prcycoin.com" },
    { name := "vps2.prcycoin.com", host := "vps2.prcycoin.com" },
    { name := "vps3.prcycoin.com", host := "vps3.prcycoin.com" },
    { name := "vps4.prcycoin.com", host := "vps4.prcycoin.com" },
    { name := "vps5.prcycoin.com", host := "vps5.prcycoin.com" } ]

/-- The assignments of `CMainParams()` after its two assertions; `k` clock
and random calls were made before. -/
def CMainParams_rest (env : Env) (k : Nat) (p : CChainParams) : CChainParams :=
  { p with
    vSeeds := p.vSeeds ++ vSeedsMain
    base58Prefixes :=
      { PUBKEY_ADDRESS := [55]
        SCRIPT_ADDRESS := [61]
        SECRET_KEY := [28]
        EXT_PUBLIC_KEY := [0x57, 0x4D, 0x12, 0x23]
        EXT_SECRET_KEY := [0x57, 0x41, 0x71, 0x65] }
    nExtCoinType := 0x80000355
    vFixedSeeds :=
      convertSeed6 env k p.vFixedSeeds (seedArray env.pnSeed6_main) env.pnSeed6_main.length
    fRequireRPCPassword := true
    fMiningRequiresPeers := true
    fAllowMinDifficultyBlocks := false
    fDefaultConsistencyChecks := false
    fRequireStandard := true
    fMineBlocksOnDemand := false
    fSkipProofOfWorkCheck := false
    fTestnetToBeDeprecatedFieldRPC := false
    fHeadersFirstSyncingActive := false
    nPoolMaxTransactions := 3
    strObfuscationPoolDummyAddress := "D87q2gC9j6nNrnzCsg4aY6bHMLsT9nUhEw"
    nStartMasternodePayments := 1546809115
    Checkpoints := data }

/-- The constructor `CMainParams()`. `fuel` bounds the passes of the search
loop; `k` clock and random calls were made before. -/
def CMainParams (env : Env) (fuel k : Nat) (base : CChainParams) :
    Except Failure CChainParams := do
  let p := CMainParams_template env base
  let found ← searchGenesis env hashGenesisMain fuel p.genesis
  let p := { p with genesis := found.1 }
  let p := { p with hashGenesisBlock := env.GetHash p.genesis }
  assert (p.hashGenesisBlock == hashGenesisMain)
  assert (p.genesis.hashMerkleRoot == hashMerkleRootMain)
  pure (CMainParams_rest env k p)

/-! ## `CTestNetParams` -/

/-- The assignments of `CTestNetParams()` up to `genesis.nNonce = 23323155`,
applied to the object built by the base-class constructor. -/
def CTestNetParams_template (env : Env) (p : CChainParams) : CChainParams :=
  { p with
    networkID := .TESTNET
    strNetworkID := "test"
    pchMessageStart := [0xc1, 0xaa, 0xb2, 0xe9]
    nDefaultPort := 59684
    nEnforceBlockUpgradeMajority := 4320
    nRejectBlockOutdatedMajority := 5472
    nToCheckBlockUpgradeMajority := 5760
    nMinerThreads := 0
    nTargetTimespan := 1 * 60
    nTargetSpacing := 1 * 60
    nLastPOWBlock := 500
    nStartPOABlock := 560
    nPoABlockTime := 30 * 60
    nMinNumPoSBlocks := 20
    nMaturity := 15
    nMasternodeCountDrift := 4
    nModifierUpdateBlock := 51197
    MAX_MONEY := 5000000000
    nMaxMoneyOut := 5000000000 * env.COIN
    nSoftForkBlock := 300
    nPoANewDiff := 500
    genesis := { p.genesis with nTime := 1608422400, nNonce := 23323155 } }

/-- The assignments of `CTestNetParams()` after its assertion; `k` clock
and random calls were made before. -/
def CTestNetParams_rest (env : Env) (k : Nat) (p : CChainParams) : CChainParams :=
  let vFixedSeeds : List CAddress := []
  let vSeeds : List CDNSSeedData := []
  { p with
    vSeeds :=
      vSeeds ++ [ { name := "testnet.prcycoin-seeds.com", host := "testnet.prcycoin-seeds.com" } ]
    base58Prefixes :=
      { PUBKEY_ADDRESS := [139]
        SCRIPT_ADDRESS := [19]
        SECRET_KEY := [239]
        EXT_PUBLIC_KEY := [0x3a, 0x80, 0x61, 0xa0]
        EXT_SECRET_KEY := [0x3a, 0x80, 0x58, 0x37] }
    nExtCoinType := 0x80000001
    vFixedSeeds :=
      convertSeed6 env k vFixedSeeds (seedArray env.pnSeed6_test) env.pnSeed6_test.length
    fRequireRPCPassword := true
    fMiningRequiresPeers := true
    fAllowMinDifficultyBlocks := false
    fDefaultConsistencyChecks := false
    fRequireStandard := false
    fMineBlocksOnDemand := false
    fTestnetToBeDeprecatedFieldRPC := true
    nPoolMaxTransactions := 2
    strObfuscationPoolDummyAddress := "y57cqfGRkekRyDRNeJiLtYVEbvhXrNbmox"
    nStartMasternodePayments := 1420837558
    nBudget_Fee_Confirmations := 3
    Checkpoints := dataTestnet }

/-- The constructor `CTestNetParams()`: the base-class constructor
`CMainParams()` runs first. -/
def CTestNetParams (env : Env) (fuel k : Nat) (base : CChainParams) :
    Except Failure CChainParams := do
  let p ← CMainParams env fuel k base
  let p := CTestNetParams_template env p
  let found ← searchGenesis env hashGenesisTestnet fuel p.genesis
  let p := { p with genesis := found.1 }
  let p := { p with hashGenesisBlock := env.GetHash p.genesis }
  assert (p.hashGenesisBlock == hashGenesisTestnet)
  pure (CTestNetParams_rest env (k + env.pnSeed6_main.length) p)

/-! ## `CRegTestParams` -/

/-- The assignments of `CRegTestParams()` up to `genesis.nNonce = 12361`,
applied to the object built by the base-class constructor. -/
def CRegTestParams_template (p : CChainParams) : CChainParams :=
  { p with
    networkID := .REGTEST
    strNetworkID := "regtest"
    pchMessageStart := [0xc6, 0xb3, 0x97, 0xd1]
    nSubsidyHalvingInterval := 150
    nEnforceBlockUpgradeMajority := 750
    nRejectBlockOutdatedMajority := 950
    nToCheckBlockUpgradeMajority := 1000
    nMinerThreads := 1
    nTargetTimespan := 24 * 60 * 60
    nTargetSpacing := 1 * 60
    bnProofOfWorkLimit := (2 ^ 256 - 1 - 0) / 2 ^ 1
    genesis := { p.genesis with nTime := 1608422399, nBits := 0x207fffff, nNonce := 12361 } }

/-- The assignments of `CRegTestParams()` after its assertion. -/
def CRegTestParams_rest (p : CChainParams) : CChainParams :=
  { p with
    vFixedSeeds := []
    vSeeds := []
    fRequireRPCPassword := false
    fMiningRequiresPeers := false
    fAllowMinDifficultyBlocks := true
    fDefaultConsistencyChecks := true
    fRequireStandard := false
    fMineBlocksOnDemand := true
    fTestnetToBeDeprecatedFieldRPC := false
    Checkpoints := dataRegtest }

/-- The constructor `CRegTestParams()`: the base-class constructor
`CTestNetParams()` runs first. -/
def CRegTestParams (env : Env) (fuel k : Nat) (base : CChainParams) :
    Except Failure CChainParams := do
  let p ← CTestNetParams env fuel k base
  let p := CRegTestParams_template p
  let found ← searchGenesis env hashGenesisRegtest fuel p.genesis
  let p := { p with genesis := found.1 }
  let p := { p with hashGenesisBlock := env.GetHash p.genesis }
  let p := { p with nDefaultPort := 51476 }
  assert (p.hashGenesisBlock == hashGenesisRegtest)
  pure (CRegTestParams_rest p)

/-! ## The registry: `Params`, `SelectParams`, `SelectParamsFromCommandLine` -/

/-- The address of one of the three static parameter objects. -/
inductive ParamsRef where
  | mainParams
  | testNetParams
  | regTestParams
  deriving DecidableEq, Repr

/-- The file-level objects: the three static profiles and the pointer
`pCurrentParams` (`none` is the null pointer). `SelectBaseParams` works on
the objects of `chainparamsbase.cpp` only; what this file does to them is
kept as the list of the networks it was called with, oldest first. -/
structure Globals where
  mainParams : CChainParams
  testNetParams : CChainParams
  regTestParams : CChainParams
  pCurrentParams : Option ParamsRef
  baseSelections : List Network
  deriving DecidableEq, Repr

/-- The object a reference points to. -/
def Globals.deref (g : Globals) : ParamsRef → CChainParams
  | .mainParams => g.mainParams
  | .testNetParams => g.testNetParams
  | .regTestParams => g.regTestParams

/-- Static initialisation of the file: the three objects are constructed in
the order of their definitions and `pCurrentParams` starts null. -/
def staticInit (env : Env) (fuel : Nat) (base : CChainParams) : Except Failure Globals := do
  let mainParams ← CMainParams env fuel 0 base
  let testNetParams ← CTestNetParams env fuel env.pnSeed6_main.length base
  let regTestParams ←
    CRegTestParams env fuel (2 * env.pnSeed6_main.length + env.pnSeed6_test.length) base
  pure
    { mainParams := mainParams
      testNetParams := testNetParams
      regTestParams := regTestParams
      pCurrentParams := none
      baseSelections := [] }

/-- The accessor `Params()`. -/
def Params (g : Globals) : Except Failure CChainParams :=
  match g.pCurrentParams with
  | none => .error .assertion
  | some r => .ok (g.deref r)

/-- The lookup `Params(network)`, as the reference it returns. -/
def ParamsRef.ofNetwork : Network → Except Failure ParamsRef
  | .MAIN => .ok .mainParams
  | .TESTNET => .ok .testNetParams
  | .REGTEST => .ok .regTestParams
  | .MAX_NETWORK_TYPES => .error .assertion

/-- The lookup `Params(network)`, as the object it returns. -/
def ParamsNetwork (g : Globals) (network : Network) : Except Failure CChainParams := do
  let r ← ParamsRef.ofNetwork network
  pure (g.deref r)

/-- The function `SelectParams`. -/
def SelectParams (network : Network) (g : Globals) : Except Failure Globals := do
  let g := { g with baseSelections := g.baseSelections ++ [network] }
  let r ← ParamsRef.ofNetwork network
  pure { g with pCurrentParams := some r }

/-- The function `SelectParamsFromCommandLine`: the returned boolean and the
globals it leaves. -/
def SelectParamsFromCommandLine (env : Env) (g : Globals) : Except Failure (Bool × Globals) := do
  let network := env.NetworkIdFromCommandLine
  if network = .MAX_NETWORK_TYPES then
    return (false, g)
  let g ← SelectParams network g
  return (true, g)

/-- A call made by the rest of the program on the registry. -/
inductive Call where
  | select (network : Network)
  | selectFromCommandLine
  deriving DecidableEq, Repr

/-- Run one call. -/
def Call.run (env : Env) (g : Globals) : Call → Except Failure Globals
  | .select network => SelectParams network g
  | .selectFromCommandLine => do
    let r ← SelectParamsFromCommandLine env g
    pure r.2

/-- Run a sequence of calls, first to last. -/
def runCalls (env : Env) : List Call → Globals → Except Failure Globals
  | [], g => .ok g
  | c :: cs, g => do
    let g ← c.run env g
    runCalls env cs g

/-- The fields a search pass does not assign. -/
def sameOutsideSearch (g h : CBlock) : Prop :=
  h.nVersion = g.nVersion ∧ h.hashPrevBlock = g.hashPrevBlock ∧
    h.hashMerkleRoot = g.hashMerkleRoot ∧ h.nBits = g.nBits ∧ h.vtx = g.vtx

/-- The object after the search block and `hashGenesisBlock = genesis.GetHash()`,
when the search left the block `g`. -/
def afterSearch (env : Env) (p : CChainParams) (g : CBlock) : CChainParams :=
  { p with genesis := g, hashGenesisBlock := env.GetHash g }

/-! ## Sample inputs -/

/-- A parameter object with every field zero or empty. -/
def zeroParams : CChainParams :=
  { networkID := .MAIN
    strNetworkID := ""
    pchMessageStart := [0, 0, 0, 0]
    nDefaultPort := 0
    bnProofOfWorkLimit := 0
    nSubsidyHalvingInterval := 0
    nMaxReorganizationDepth := 0
    nEnforceBlockUpgradeMajority := 0
    nRejectBlockOutdatedMajority := 0
    nToCheckBlockUpgradeMajority := 0
    nMinerThreads := 0
    nTargetTimespan := 0
    nTargetSpacing := 0
    nMaturity := 0
    nMasternodeCountDrift := 0
    MAX_MONEY := 0
    nMaxMoneyOut := 0
    nLastPOWBlock := 0
    nStartPOABlock := 0
    nModifierUpdateBlock := 0
    nPoABlockTime := 0
    nMinNumPoSBlocks := 0
    nMaxNumPoSBlocks := 0
    nSoftForkBlock := 0
    nPoANewDiff := 0
    genesis :=
      { nVersion := 0, hashPrevBlock := 0, hashMerkleRoot := 0, nTime := 0, nBits := 0,
        nNonce := 0, vtx := [] }
    hashGenesisBlock := 0
    vSeeds := []
    base58Prefixes :=
      { PUBKEY_ADDRESS := [], SCRIPT_ADDRESS := [], SECRET_KEY := [], EXT_PUBLIC_KEY := [],
        EXT_SECRET_KEY := [] }
    nExtCoinType := 0
    vFixedSeeds := []
    fRequireRPCPassword := false
    fMiningRequiresPeers := false
    fAllowMinDifficultyBlocks := false
    fDefaultConsistencyChecks := false
    fRequireStandard := false
    fMineBlocksOnDemand := false
    fSkipProofOfWorkCheck := false
    fTestnetToBeDeprecatedFieldRPC := false
    fHeadersFirstSyncingActive := false
    nPoolMaxTransactions := 0
    strObfuscationPoolDummyAddress := ""
    nStartMasternodePayments := 0
    nBudget_Fee_Confirmations := 0
    Checkpoints :=
      { mapCheckpoints := [], nTimeLastCheckpoint := 0, nTransactionsLastCheckpoint := 0,
        fTransactionsPerDay := 0 } }

/-- A hash function that gives each of the three shipped templates its
expected hash, telling them apart by their time. -/
def sampleHash (b : CBlock) : Nat :=
  if b.nTime = 1610409600 then hashGenesisMain
  else if b.nTime = 1608422400 then hashGenesisTestnet
  else hashGenesisRegtest

/-- An environment built on `sampleHash`, with one main seed record. -/
def sampleEnv : Env :=
  { GetHash := sampleHash
    BuildMerkleTree := fun _ => hashMerkleRootMain
    SetCompact := fun _ => 0
    COIN := 100000000
    NODE_NETWORK := 1
    GetTime := fun _ => 1614113250
    GetRand := fun k nMax => (1000 * k + 7) % nMax
    nTimeBits := 32
    pnSeed6_main := [ { addr := [0, 0, 0, 0, 0, 0, 0, 0, 0, 0, 255, 255, 10, 0, 0, 1], port := 59682 } ]
    pnSeed6_test := []
    NetworkIdFromCommandLine := .TESTNET }

/-- The main profile in `sampleEnv`. -/
def sampleMain : CChainParams :=
  CMainParams_rest sampleEnv 0
    (afterSearch sampleEnv (CMainParams_template sampleEnv zeroParams)
      (CMainParams_template sampleEnv zeroParams).genesis)

/-- The testnet profile in `sampleEnv`. -/
def sampleTestNet : CChainParams :=
  CTestNetParams_rest sampleEnv 1
    (afterSearch sampleEnv (CTestNetParams_template sampleEnv sampleMain)
      (CTestNetParams_template sampleEnv sampleMain).genesis)

/-- The regtest profile in `sampleEnv`. -/
def sampleRegTest : CChainParams :=
  CRegTestParams_rest
    { afterSearch sampleEnv (CRegTestParams_template sampleTestNet)
        (CRegTestParams_template sampleTestNet).genesis with nDefaultPort := 51476 }

/-- An environment whose hash function is constantly zero, which is none of
the expected hashes, and whose target is zero as well. -/
def zeroHashEnv : Env :=
  { sampleEnv with GetHash := fun _ => 0 }

/-- The sixteen lowercase hexadecimal digits, in the order of their values. -/
def lowerHexChars : List Char :=
  "0123456789abcdef".toList

/-- The value of a hexadecimal digit: its place among `lowerHexChars`. -/
def hexCharValue (c : Char) : Nat :=
  lowerHexChars.indexOf c

/-- The number that a string of hexadecimal digits denotes, the most
significant digit first. -/
def hexValue (s : String) : Nat :=
  s.toList.foldl (fun acc c => 16 * acc + hexCharValue c) 0

/-- A filter-capable DNS seed entry. -/
def filterSeed : CDNSSeedData :=
  { name := "seed", host := "seed.example.org", supportsServiceBitsFiltering := true }

/-- A DNS seed entry without filter support. -/
def plainSeed : CDNSSeedData :=
  { name := "seed", host := "seed.example.org" }

/-- An environment whose clock reads `2 ^ 32 + 1209600`, two weeks past the
end of the 32-bit range of Unix time, and whose random draws are zero; the
field `nTime` is 32 bits wide. -/
def lateClockEnv : Env :=
  { sampleEnv with
    GetTime := fun _ => 2 ^ 32 + 1209600
    GetRand := fun _ _ => 0
    nTimeBits := 32 }

/-- The globals that `SelectParams(network)` leaves when `Params(network)`
answered the reference `r`. -/
def Globals.selected (g : Globals) (network : Network) (r : ParamsRef) : Globals :=
  { g with baseSelections := g.baseSelections ++ [network], pCurrentParams := some r }

/-- The globals after static initialisation in `sampleEnv`. -/
def sampleGlobals : Globals :=
  { mainParams := sampleMain
    testNetParams := sampleTestNet
    regTestParams := sampleRegTest
    pCurrentParams := none
    baseSelections := [] }

/-- The environment `sampleEnv` with a command line that names no network. -/
def noNetworkEnv : Env :=
  { sampleEnv with NetworkIdFromCommandLine := .MAX_NETWORK_TYPES }

/-! ## The order of the search, and more sample inputs -/

/-- The record reached from `g` by `i` increments of the nonce modulo
`2 ^ 32`, the time going up by one, as a 32-bit counter, at each wrap of
the nonce to zero: after `i` increments the nonce has wrapped
`(g.nNonce + i) / 2 ^ 32` times. All other fields are those of `g`. -/
def searchOrder (g : CBlock) (i : Nat) : CBlock :=
  { g with
    nNonce := (g.nNonce + i) % 2 ^ 32
    nTime := (g.nTime + (g.nNonce + i) / 2 ^ 32) % 2 ^ 32 }

/-- An environment with target zero in which the only block hashing to zero
has nonce `1` and time `1610409601`. -/
def wrapEnv : Env :=
  { sampleEnv with
    GetHash := fun b => if b.nNonce = 1 ∧ b.nTime = 1610409601 then 0 else 1 }

/-- The main template solved for `wrapEnv`: nonce `1`, time `1610409601`. -/
def wrapSolved : CBlock :=
  { (CMainParams_template wrapEnv zeroParams).genesis with nNonce := 1, nTime := 1610409601 }

/-- The block `wrapSolved` one second earlier and at the last nonce
`2 ^ 32 - 1`: the start of a run that wraps the nonce. -/
def wrapStart : CBlock :=
  { wrapSolved with nNonce := 2 ^ 32 - 1, nTime := 1610409600 }

/-- A table of two seed records. -/
def sampleTable : List SeedSpec6 :=
  [ { addr := [0, 0, 0, 0, 0, 0, 0, 0, 0, 0, 255, 255, 10, 0, 0, 1], port := 59682 },
    { addr := [0, 0, 0, 0, 0, 0, 0, 0, 0, 0, 255, 255, 10, 0, 0, 2], port := 59684 } ]

/-- An address that an output vector may hold before the conversion. -/
def sampleAddress : CAddress :=
  { ip := [0, 0, 0, 0, 0, 0, 0, 0, 0, 0, 255, 255, 127, 0, 0, 1], port := 1, nTime := 5 }

/-! ## Collaborators modelled from the specification -/

/-- Modelled from the spec: `verify(height, hash)` of the Checkpoint Store,
the function of `checkpoints.cpp` that looks a block up in the table
answered by `Checkpoints()`; that file is not part of this one. It returns
true iff no checkpoint exists at `height`, or the checkpoint at `height`
equals `hash` exactly. -/
def checkpointVerify (table : List (Nat × Nat)) (height hash : Nat) : Bool :=
  match table.lookup height with
  | none => true
  | some h => h == hash

/-- Modelled from the spec: the Hash Target Codec, the conversion of compact
difficulty bits to a 256-bit target, which is `uint256::SetCompact` of
`uint256.cpp` and not part of this file. The spec names the packed
representation without spelling it out; it is the usual one: the top byte
of the 32-bit word is a size in bytes, the low 23 bits are a mantissa, and
the target is the mantissa moved to occupy `size` bytes, cut to 256 bits. -/
def SetCompact (nCompact : Nat) : Nat :=
  let nSize := nCompact / 2 ^ 24
  let nWord := nCompact % 2 ^ 23
  if nSize ≤ 3 then
    nWord / 2 ^ (8 * (3 - nSize))
  else
    (nWord * 2 ^ (8 * (nSize - 3))) % 2 ^ 256

/-- The environment `sampleEnv` with the modelled target decoder. -/
def codecEnv : Env :=
  { sampleEnv with SetCompact := SetCompact }

/-- An environment with the modelled target decoder in which the block
hash is zero at nonce `28141689` and `2 ^ 255`, above every target, elsewhere:
the search from the main template makes two passes. -/
def twoPassCodecEnv : Env :=
  { sampleEnv with
    GetHash := fun b => if b.nNonce = 28141689 then 0 else 2 ^ 255
    SetCompact := SetCompact }

/-! ## Facts about `assert` and the search -/

theorem assert_true (c : Bool) (h : c = true) : assert c = .ok () := by
  simp [assert, h]

theorem assert_false (c : Bool) (h : c = false) : assert c = .error .assertion := by
  simp [assert, h]

theorem assert_bind_ok {α : Type} (c : Bool) (f : Unit → Except Failure α) (a : α) :
    (assert c >>= f) = .ok a ↔ c = true ∧ f () = .ok a := by
  cases c <;> simp [assert, bind, Except.bind]

theorem searchStep_same (g : CBlock) : sameOutsideSearch g (searchStep g) := by
  simp only [searchStep, sameOutsideSearch]
  split_ifs <;> simp

theorem searchLoop_same (env : Env) (hashTarget : Nat) :
    ∀ (fuel : Nat) (g : CBlock) (n : Nat) (r : CBlock × Nat),
      searchLoop env hashTarget fuel g n = .ok r → sameOutsideSearch g r.1 := by
  intro fuel
  induction fuel with
  | zero =>
    intro g n r h
    unfold searchLoop at h
    split at h
    · cases h
    · cases h; simp [sameOutsideSearch]
  | succ fuel ih =>
    intro g n r h
    unfold searchLoop at h
    split at h
    · have h1 := ih _ _ _ h
      have h2 := searchStep_same g
      unfold sameOutsideSearch at *
      refine ⟨?_, ?_, ?_, ?_, ?_⟩
      · exact h1.1.trans h2.1
      · exact h1.2.1.trans h2.2.1
      · exact h1.2.2.1.trans h2.2.2.1
      · exact h1.2.2.2.1.trans h2.2.2.2.1
      · exact h1.2.2.2.2.trans h2.2.2.2.2
    · cases h; simp [sameOutsideSearch]

theorem searchGenesis_same (env : Env) (expected fuel : Nat) (g : CBlock) (r : CBlock × Nat)
    (h : searchGenesis env expected fuel g = .ok r) : sameOutsideSearch g r.1 := by
  unfold searchGenesis at h
  split at h
  · exact searchLoop_same env _ _ _ _ _ h
  · cases h; simp [sameOutsideSearch]

/-! ## The constructors, case by case -/

theorem CMainParams_eq (env : Env) (fuel k : Nat) (base : CChainParams) :
    CMainParams env fuel k base =
      match searchGenesis env hashGenesisMain fuel (CMainParams_template env base).genesis with
      | .error e => .error e
      | .ok found =>
        if env.GetHash found.1 = hashGenesisMain ∧ found.1.hashMerkleRoot = hashMerkleRootMain then
          .ok (CMainParams_rest env k (afterSearch env (CMainParams_template env base) found.1))
        else .error .assertion := by
  unfold CMainParams
  cases hs : searchGenesis env hashGenesisMain fuel (CMainParams_template env base).genesis with
  | error e => simp [bind, Except.bind, hs]
  | ok found =>
    by_cases h1 : env.GetHash found.1 = hashGenesisMain
    · by_cases h2 : found.1.hashMerkleRoot = hashMerkleRootMain
      · simp [bind, Except.bind, assert, h1, h2, hs, afterSearch, pure, Except.pure]
      · simp [bind, Except.bind, assert, h1, h2, hs]
    · simp [bind, Except.bind, assert, h1, hs]

theorem CTestNetParams_eq (env : Env) (fuel k : Nat) (base : CChainParams) :
    CTestNetParams env fuel k base =
      match CMainParams env fuel k base with
      | .error e => .error e
      | .ok pm =>
        match searchGenesis env hashGenesisTestnet fuel (CTestNetParams_template env pm).genesis with
        | .error e => .error e
        | .ok found =>
          if env.GetHash found.1 = hashGenesisTestnet then
            .ok (CTestNetParams_rest env (k + env.pnSeed6_main.length)
              (afterSearch env (CTestNetParams_template env pm) found.1))
          else .error .assertion := by
  unfold CTestNetParams
  cases hm : CMainParams env fuel k base with
  | error e => simp [bind, Except.bind]
  | ok pm =>
    cases hs : searchGenesis env hashGenesisTestnet fuel (CTestNetParams_template env pm).genesis with
    | error e => simp [bind, Except.bind, hs]
    | ok found =>
      by_cases h1 : env.GetHash found.1 = hashGenesisTestnet
      · simp [bind, Except.bind, assert, h1, hs, afterSearch, pure, Except.pure]
      · simp [bind, Except.bind, assert, h1, hs]

/-- The object `CRegTestParams()` holds when its assertion is reached. -/
theorem CRegTestParams_eq (env : Env) (fuel k : Nat) (base : CChainParams) :
    CRegTestParams env fuel k base =
      match CTestNetParams env fuel k base with
      | .error e => .error e
      | .ok pt =>
        match searchGenesis env hashGenesisRegtest fuel (CRegTestParams_template pt).genesis with
        | .error e => .error e
        | .ok found =>
          if env.GetHash found.1 = hashGenesisRegtest then
            .ok (CRegTestParams_rest
              { afterSearch env (CRegTestParams_template pt) found.1 with nDefaultPort := 51476 })
          else .error .assertion := by
  unfold CRegTestParams
  cases hm : CTestNetParams env fuel k base with
  | error e => simp [bind, Except.bind]
  | ok pt =>
    cases hs : searchGenesis env hashGenesisRegtest fuel (CRegTestParams_template pt).genesis with
    | error e => simp [bind, Except.bind, hs]
    | ok found =>
      by_cases h1 : env.GetHash found.1 = hashGenesisRegtest
      · simp [bind, Except.bind, assert, h1, hs, afterSearch, pure, Except.pure]
      · simp [bind, Except.bind, assert, h1, hs]

/-! ## C1: the genesis assertions -/

theorem CMainParams_ok (env : Env) (fuel k : Nat) (base p : CChainParams)
    (h : CMainParams env fuel k base = .ok p) :
    ∃ found, searchGenesis env hashGenesisMain fuel (CMainParams_template env base).genesis
        = .ok found ∧
      env.GetHash found.1 = hashGenesisMain ∧ found.1.hashMerkleRoot = hashMerkleRootMain ∧
      p = CMainParams_rest env k (afterSearch env (CMainParams_template env base) found.1) := by
  rw [CMainParams_eq] at h
  cases hs : searchGenesis env hashGenesisMain fuel (CMainParams_template env base).genesis with
  | error e => rw [hs] at h; cases h
  | ok found =>
    rw [hs] at h
    simp only at h
    split_ifs at h with hc
    cases h
    exact ⟨found, rfl, hc.1, hc.2, rfl⟩

theorem CTestNetParams_ok (env : Env) (fuel k : Nat) (base p : CChainParams)
    (h : CTestNetParams env fuel k base = .ok p) :
    ∃ pm found, CMainParams env fuel k base = .ok pm ∧
      searchGenesis env hashGenesisTestnet fuel (CTestNetParams_template env pm).genesis
        = .ok found ∧
      env.GetHash found.1 = hashGenesisTestnet ∧
      p = CTestNetParams_rest env (k + env.pnSeed6_main.length)
        (afterSearch env (CTestNetParams_template env pm) found.1) := by
  rw [CTestNetParams_eq] at h
  cases hm : CMainParams env fuel k base with
  | error e => rw [hm] at h; cases h
  | ok pm =>
    rw [hm] at h
    simp only at h
    cases hs : searchGenesis env hashGenesisTestnet fuel
        (CTestNetParams_template env pm).genesis with
    | error e => rw [hs] at h; cases h
    | ok found =>
      rw [hs] at h
      simp only at h
      split_ifs at h with hc
      cases h
      exact ⟨pm, found, rfl, hs, hc, rfl⟩

theorem CRegTestParams_ok (env : Env) (fuel k : Nat) (base p : CChainParams)
    (h : CRegTestParams env fuel k base = .ok p) :
    ∃ pt found, CTestNetParams env fuel k base = .ok pt ∧
      searchGenesis env hashGenesisRegtest fuel (CRegTestParams_template pt).genesis
        = .ok found ∧
      env.GetHash found.1 = hashGenesisRegtest ∧
      p = CRegTestParams_rest
        { afterSearch env (CRegTestParams_template pt) found.1 with nDefaultPort := 51476 } := by
  rw [CRegTestParams_eq] at h
  cases hm : CTestNetParams env fuel k base with
  | error e => rw [hm] at h; cases h
  | ok pt =>
    rw [hm] at h
    simp only at h
    cases hs : searchGenesis env hashGenesisRegtest fuel (CRegTestParams_template pt).genesis with
    | error e => rw [hs] at h; cases h
    | ok found =>
      rw [hs] at h
      simp only at h
      split_ifs at h with hc
      cases h
      exact ⟨pt, found, rfl, hs, hc, rfl⟩

/-- What the two assertions of `CMainParams()` establish. -/
theorem genesis_facts_main (env : Env) (fuel k : Nat) (base p : CChainParams)
    (h : CMainParams env fuel k base = .ok p) :
    p.hashGenesisBlock = env.GetHash p.genesis ∧ p.hashGenesisBlock = hashGenesisMain ∧
      p.genesis.hashMerkleRoot = hashMerkleRootMain ∧
      p.genesis.hashMerkleRoot = env.BuildMerkleTree p.genesis.vtx := by
  obtain ⟨found, hs, h1, h2, rfl⟩ := CMainParams_ok env fuel k base p h
  have hsame := searchGenesis_same env _ _ _ _ hs
  refine ⟨rfl, h1, h2, ?_⟩
  show found.1.hashMerkleRoot = env.BuildMerkleTree found.1.vtx
  rw [hsame.2.2.1, hsame.2.2.2.2]
  rfl

theorem genesis_facts_testnet (env : Env) (fuel k : Nat) (base p : CChainParams)
    (h : CTestNetParams env fuel k base = .ok p) :
    p.hashGenesisBlock = env.GetHash p.genesis ∧ p.hashGenesisBlock = hashGenesisTestnet ∧
      p.genesis.hashMerkleRoot = hashMerkleRootMain ∧
      p.genesis.hashMerkleRoot = env.BuildMerkleTree p.genesis.vtx := by
  obtain ⟨pm, found, hm, hs, h1, rfl⟩ := CTestNetParams_ok env fuel k base p h
  have hsame := searchGenesis_same env _ _ _ _ hs
  obtain ⟨-, -, m1, m2⟩ := genesis_facts_main env fuel k base pm hm
  refine ⟨rfl, h1, ?_, ?_⟩
  · show found.1.hashMerkleRoot = hashMerkleRootMain
    rw [hsame.2.2.1]
    exact m1
  · show found.1.hashMerkleRoot = env.BuildMerkleTree found.1.vtx
    rw [hsame.2.2.1, hsame.2.2.2.2]
    exact m2

theorem genesis_facts_regtest (env : Env) (fuel k : Nat) (base p : CChainParams)
    (h : CRegTestParams env fuel k base = .ok p) :
    p.hashGenesisBlock = env.GetHash p.genesis ∧ p.hashGenesisBlock = hashGenesisRegtest ∧
      p.genesis.hashMerkleRoot = hashMerkleRootMain ∧
      p.genesis.hashMerkleRoot = env.BuildMerkleTree p.genesis.vtx := by
  obtain ⟨pt, found, ht, hs, h1, rfl⟩ := CRegTestParams_ok env fuel k base p h
  have hsame := searchGenesis_same env _ _ _ _ hs
  obtain ⟨-, -, m1, m2⟩ := genesis_facts_testnet env fuel k base pt ht
  refine ⟨rfl, h1, ?_, ?_⟩
  · show found.1.hashMerkleRoot = hashMerkleRootMain
    rw [hsame.2.2.1]
    exact m1
  · show found.1.hashMerkleRoot = env.BuildMerkleTree found.1.vtx
    rw [hsame.2.2.1, hsame.2.2.2.2]
    exact m2

/-- C1. Whenever one of the three constructors completes, the stored genesis
hash is the hash of the genesis block and is the expected hash of that
network, and the Merkle root of the genesis block is the Merkle root of its
transactions and is the expected root `cd01f1ca...9cd4`, which the testnet
and regtest constructors inherit unchanged. Whenever the search of a
constructor ends in a block that misses an expected value, the constructor
ends in a failed assertion and yields no profile. -/
theorem genesis_asserted (env : Env) (fuel k : Nat) (base : CChainParams) :
    (∀ p, CMainParams env fuel k base = .ok p →
      p.hashGenesisBlock = env.GetHash p.genesis ∧ p.hashGenesisBlock = hashGenesisMain ∧
        p.genesis.hashMerkleRoot = hashMerkleRootMain ∧
        p.genesis.hashMerkleRoot = env.BuildMerkleTree p.genesis.vtx) ∧
    (∀ p, CTestNetParams env fuel k base = .ok p →
      p.hashGenesisBlock = env.GetHash p.genesis ∧ p.hashGenesisBlock = hashGenesisTestnet ∧
        p.genesis.hashMerkleRoot = hashMerkleRootMain ∧
        p.genesis.hashMerkleRoot = env.BuildMerkleTree p.genesis.vtx) ∧
    (∀ p, CRegTestParams env fuel k base = .ok p →
      p.hashGenesisBlock = env.GetHash p.genesis ∧ p.hashGenesisBlock = hashGenesisRegtest ∧
        p.genesis.hashMerkleRoot = hashMerkleRootMain ∧
        p.genesis.hashMerkleRoot = env.BuildMerkleTree p.genesis.vtx) ∧
    (∀ found,
      searchGenesis env hashGenesisMain fuel (CMainParams_template env base).genesis
        = .ok found →
      env.GetHash found.1 ≠ hashGenesisMain ∨ found.1.hashMerkleRoot ≠ hashMerkleRootMain →
      CMainParams env fuel k base = .error .assertion) ∧
    (∀ pm found, CMainParams env fuel k base = .ok pm →
      searchGenesis env hashGenesisTestnet fuel (CTestNetParams_template env pm).genesis
        = .ok found →
      env.GetHash found.1 ≠ hashGenesisTestnet →
      CTestNetParams env fuel k base = .error .assertion) ∧
    (∀ pt found, CTestNetParams env fuel k base = .ok pt →
      searchGenesis env hashGenesisRegtest fuel (CRegTestParams_template pt).genesis
        = .ok found →
      env.GetHash found.1 ≠ hashGenesisRegtest →
      CRegTestParams env fuel k base = .error .assertion) := by
  refine ⟨genesis_facts_main env fuel k base, genesis_facts_testnet env fuel k base,
    genesis_facts_regtest env fuel k base, ?_, ?_, ?_⟩
  · intro found hs hne
    rw [CMainParams_eq, hs]
    simp only
    rw [if_neg]
    intro hc
    rcases hne with hne | hne
    · exact hne hc.1
    · exact hne hc.2
  · intro pm found hm hs hne
    rw [CTestNetParams_eq, hm]
    simp only
    rw [hs]
    simp only
    rw [if_neg hne]
  · intro pt found ht hs hne
    rw [CRegTestParams_eq, ht]
    simp only
    rw [hs]
    simp only
    rw [if_neg hne]

/-- C1 at `sampleEnv`, where the three constructors complete, and at
`zeroHashEnv`, where the main constructor ends in a failed assertion. -/
theorem genesis_asserted_witness :
    (CMainParams sampleEnv 0 0 zeroParams = .ok sampleMain ∧
      sampleMain.hashGenesisBlock = hashGenesisMain ∧
      sampleMain.genesis.hashMerkleRoot = hashMerkleRootMain) ∧
    (CTestNetParams sampleEnv 0 0 zeroParams = .ok sampleTestNet ∧
      sampleTestNet.hashGenesisBlock = hashGenesisTestnet ∧
      sampleTestNet.genesis.hashMerkleRoot = hashMerkleRootMain) ∧
    (CRegTestParams sampleEnv 0 0 zeroParams = .ok sampleRegTest ∧
      sampleRegTest.hashGenesisBlock = hashGenesisRegtest ∧
      sampleRegTest.genesis.hashMerkleRoot = hashMerkleRootMain) ∧
    (searchGenesis zeroHashEnv hashGenesisMain 0 (CMainParams_template zeroHashEnv zeroParams).genesis
        = .ok ((CMainParams_template zeroHashEnv zeroParams).genesis, 0) ∧
      zeroHashEnv.GetHash (CMainParams_template zeroHashEnv zeroParams).genesis
        ≠ hashGenesisMain ∧
      CMainParams zeroHashEnv 0 0 zeroParams = .error .assertion) :=
  ⟨⟨rfl, ((genesis_asserted sampleEnv 0 0 zeroParams).1 sampleMain rfl).2.1,
      ((genesis_asserted sampleEnv 0 0 zeroParams).1 sampleMain rfl).2.2.1⟩,
    ⟨rfl, ((genesis_asserted sampleEnv 0 0 zeroParams).2.1 sampleTestNet rfl).2.1,
      ((genesis_asserted sampleEnv 0 0 zeroParams).2.1 sampleTestNet rfl).2.2.1⟩,
    ⟨rfl, ((genesis_asserted sampleEnv 0 0 zeroParams).2.2.1 sampleRegTest rfl).2.1,
      ((genesis_asserted sampleEnv 0 0 zeroParams).2.2.1 sampleRegTest rfl).2.2.1⟩,
    ⟨rfl, by decide,
      (genesis_asserted zeroHashEnv 0 0 zeroParams).2.2.2.1
        ((CMainParams_template zeroHashEnv zeroParams).genesis, 0) rfl (Or.inl (by decide))⟩⟩

/-! ## C3: the search block -/

theorem searchLoop_done (env : Env) (hashTarget fuel : Nat) (g : CBlock) (n : Nat)
    (h : env.GetHash g ≤ hashTarget) : searchLoop env hashTarget fuel g n = .ok (g, n) := by
  cases fuel <;> simp [searchLoop, Nat.not_lt.mpr h]

theorem searchLoop_target (env : Env) (hashTarget : Nat) :
    ∀ (fuel : Nat) (g : CBlock) (n : Nat) (r : CBlock × Nat),
      searchLoop env hashTarget fuel g n = .ok r → env.GetHash r.1 ≤ hashTarget := by
  intro fuel
  induction fuel with
  | zero =>
    intro g n r h
    unfold searchLoop at h
    split at h
    · cases h
    · cases h; exact Nat.not_lt.mp ‹_›
  | succ fuel ih =>
    intro g n r h
    unfold searchLoop at h
    split at h
    · exact ih _ _ _ h
    · cases h; exact Nat.not_lt.mp ‹_›

/-- C3. When the hash of the template, with its stored nonce and time, is
already at most the target decoded from its bits, the search block returns
for every step budget, makes zero passes, and leaves the template as it
is, so with the same nonce and the same time. -/
theorem presolved_template_unchanged (env : Env) (expected fuel : Nat) (genesis : CBlock)
    (h : env.GetHash genesis ≤ env.SetCompact genesis.nBits) :
    searchGenesis env expected fuel genesis = .ok (genesis, 0) ∧
      ∀ r, searchGenesis env expected fuel genesis = .ok r →
        r.2 = 0 ∧ r.1.nNonce = genesis.nNonce ∧ r.1.nTime = genesis.nTime := by
  have key : searchGenesis env expected fuel genesis = .ok (genesis, 0) := by
    unfold searchGenesis
    split
    · exact searchLoop_done env _ fuel genesis 0 h
    · rfl
  refine ⟨key, ?_⟩
  intro r hr
  rw [key] at hr
  cases hr
  exact ⟨rfl, rfl, rfl⟩

/-- C3 at the main template in `zeroHashEnv`: hash and target are zero and
the hash is not the expected one, so the loop condition is what decides. -/
theorem presolved_template_unchanged_witness :
    zeroHashEnv.GetHash (CMainParams_template zeroHashEnv zeroParams).genesis
        ≤ zeroHashEnv.SetCompact (CMainParams_template zeroHashEnv zeroParams).genesis.nBits ∧
      searchGenesis zeroHashEnv hashGenesisMain 0 (CMainParams_template zeroHashEnv zeroParams).genesis
        = .ok ((CMainParams_template zeroHashEnv zeroParams).genesis, 0) :=
  ⟨by decide,
    (presolved_template_unchanged zeroHashEnv hashGenesisMain 0
      (CMainParams_template zeroHashEnv zeroParams).genesis (by decide)).1⟩

/-- Whenever the search block returns, the hash of the block it leaves is
the expected hash (the search was skipped) or is at most the target decoded
from its bits (the loop ended). -/
theorem searchGenesis_hash (env : Env) (expected fuel : Nat)
    (genesis : CBlock) (r : CBlock × Nat)
    (h : searchGenesis env expected fuel genesis = .ok r) :
    (env.GetHash r.1 = expected ∨ env.GetHash r.1 ≤ env.SetCompact r.1.nBits) ∧
      (env.GetHash genesis ≠ expected → env.GetHash r.1 ≤ env.SetCompact r.1.nBits) ∧
      (expected ≤ env.SetCompact genesis.nBits →
        env.GetHash r.1 ≤ env.SetCompact r.1.nBits) := by
  have hbits : r.1.nBits = genesis.nBits := (searchGenesis_same env _ _ _ _ h).2.2.2.1
  have main : env.GetHash genesis ≠ expected →
      env.GetHash r.1 ≤ env.SetCompact r.1.nBits := by
    intro hne
    unfold searchGenesis at h
    rw [if_pos hne] at h
    rw [hbits]
    exact searchLoop_target env _ _ _ _ _ h
  by_cases hne : env.GetHash genesis ≠ expected
  · exact ⟨Or.inr (main hne), main, fun _ => main hne⟩
  · have heq : env.GetHash genesis = expected := not_not.mp hne
    have hr : r = (genesis, 0) := by
      unfold searchGenesis at h
      rw [if_neg hne] at h
      cases h
      rfl
    subst hr
    exact ⟨Or.inl heq, main, fun hle => heq ▸ hle⟩

/-! ## C4: `getHost` -/

theorem strprintf_x_dot_ne (bits : Nat) (host : String) : strprintf_x_dot bits host ≠ host := by
  intro h
  have hl := congrArg String.length h
  simp only [strprintf_x_dot, String.length_append] at hl
  have h1 : "x".length = 1 := rfl
  omega

theorem digitChar_hex (d : Nat) (h : d < 16) :
    Nat.digitChar d ∈ lowerHexChars ∧ hexCharValue (Nat.digitChar d) = d ∧
      (Nat.digitChar d = '0' → d = 0) := by
  interval_cases d <;> decide

theorem toDigitsCore_digits (fuel : Nat) :
    ∀ (n : Nat) (ds : List Char), 0 < n → n < fuel →
      Nat.toDigitsCore 16 fuel n ds = ((Nat.digits 16 n).reverse).map Nat.digitChar ++ ds := by
  induction fuel with
  | zero => intro n ds _ h; omega
  | succ fuel ih =>
    intro n ds hpos hlt
    rw [Nat.digits_def' (by norm_num) hpos]
    simp only [Nat.toDigitsCore]
    by_cases h0 : n / 16 = 0
    · simp [h0]
    · rw [if_neg h0, ih (n / 16) _ (Nat.pos_of_ne_zero h0) (by omega)]
      simp

theorem hexDigits_toList (n : Nat) (hpos : 0 < n) :
    (hexDigits n).toList = ((Nat.digits 16 n).reverse).map Nat.digitChar := by
  show Nat.toDigitsCore 16 (n + 1) n [] = _
  rw [toDigitsCore_digits (n + 1) n [] hpos (Nat.lt_succ_self n), List.append_nil]

theorem hexValue_digits (L : List Nat) (hL : ∀ d ∈ L, d < 16) :
    (L.reverse.map Nat.digitChar).foldl (fun acc c => 16 * acc + hexCharValue c) 0
      = Nat.ofDigits 16 L := by
  induction L with
  | nil => simp [Nat.ofDigits]
  | cons d t ih =>
    have hd : d < 16 := hL d (List.mem_cons_self d t)
    have ht : ∀ e ∈ t, e < 16 := fun e he => hL e (List.mem_cons_of_mem d he)
    rw [List.reverse_cons, List.map_append, List.foldl_append, ih ht, Nat.ofDigits_cons]
    simp only [List.map_cons, List.map_nil, List.foldl_cons, List.foldl_nil]
    rw [(digitChar_hex d hd).2.1]
    omega

theorem hexDigits_chars (n : Nat) : ∀ c ∈ (hexDigits n).toList, c ∈ lowerHexChars := by
  rcases Nat.eq_zero_or_pos n with rfl | hpos
  · decide
  · intro c hc
    rw [hexDigits_toList n hpos, List.mem_map] at hc
    obtain ⟨d, hd, rfl⟩ := hc
    rw [List.mem_reverse] at hd
    exact (digitChar_hex d (Nat.digits_lt_base (by norm_num) hd)).1

theorem hexValue_hexDigits (n : Nat) : hexValue (hexDigits n) = n := by
  rcases Nat.eq_zero_or_pos n with rfl | hpos
  · decide
  · unfold hexValue
    rw [hexDigits_toList n hpos,
      hexValue_digits _ (fun d hd => Nat.digits_lt_base (by norm_num) hd), Nat.ofDigits_digits]

theorem hexDigits_head (n : Nat) (hn : n ≠ 0) : (hexDigits n).toList.head? ≠ some '0' := by
  have hpos : 0 < n := Nat.pos_of_ne_zero hn
  have hne : Nat.digits 16 n ≠ [] := Nat.digits_ne_nil_iff_ne_zero.mpr hn
  rw [hexDigits_toList n hpos, List.head?_map, List.head?_reverse,
    List.getLast?_eq_getLast _ hne]
  intro h
  simp only [Option.map_some', Option.some.injEq] at h
  have hlt : (Nat.digits 16 n).getLast hne < 16 :=
    Nat.digits_lt_base (by norm_num) (List.getLast_mem hne)
  exact Nat.getLast_digit_ne_zero 16 hn ((digitChar_hex _ hlt).2.2 h)

theorem hexDigits_length (n : Nat) (h64 : n < 2 ^ 64) :
    1 ≤ (hexDigits n).length ∧ (hexDigits n).length ≤ 16 := by
  rcases Nat.eq_zero_or_pos n with rfl | hpos
  · decide
  · have hn : n ≠ 0 := Nat.pos_iff_ne_zero.mp hpos
    have hl : (hexDigits n).length = (Nat.digits 16 n).length := by
      show (hexDigits n).toList.length = _
      rw [hexDigits_toList n hpos]
      simp
    rw [hl, Nat.digits_len 16 n (by norm_num) hn]
    have h16 : n < 16 ^ 16 := by
      have : (16 : Nat) ^ 16 = 2 ^ 64 := by norm_num
      omega
    have := Nat.log_lt_of_lt_pow hn h16
    omega

/-- C4. For a DNS seed entry and 64-bit `requiredServiceBits`, `getHost`
returns `host` when the entry is not filter-capable or the bits equal
`NODE_NETWORK`, and otherwise `"x"`, the lowercase hexadecimal digits of the
bits, a dot, and `host`. So `getHost(NODE_NETWORK)` is the plain host for
every entry, and the result differs from the plain host exactly for a
filter-capable entry asked for other bits. The digits are the lowercase
hexadecimal numeral of the bits: each is one of `0123456789abcdef`, read as
a base-16 number they give the bits back, there is no leading zero (zero
itself is `"0"`), and a 64-bit value takes between one and sixteen of them. -/
theorem getHost_spec (NODE_NETWORK : Nat) (d : CDNSSeedData) (requiredServiceBits : Nat)
    (h64 : requiredServiceBits < 2 ^ 64) :
    (d.supportsServiceBitsFiltering = false ∨ requiredServiceBits = NODE_NETWORK →
      d.getHost NODE_NETWORK requiredServiceBits = d.host) ∧
    (d.supportsServiceBitsFiltering = true ∧ requiredServiceBits ≠ NODE_NETWORK →
      d.getHost NODE_NETWORK requiredServiceBits
        = "x" ++ hexDigits requiredServiceBits ++ "." ++ d.host) ∧
    d.getHost NODE_NETWORK NODE_NETWORK = d.host ∧
    (d.getHost NODE_NETWORK requiredServiceBits ≠ d.host ↔
      d.supportsServiceBitsFiltering = true ∧ requiredServiceBits ≠ NODE_NETWORK) ∧
    ((∀ c ∈ (hexDigits requiredServiceBits).toList, c ∈ lowerHexChars) ∧
      hexValue (hexDigits requiredServiceBits) = requiredServiceBits ∧
      (requiredServiceBits ≠ 0 → (hexDigits requiredServiceBits).toList.head? ≠ some '0') ∧
      (requiredServiceBits = 0 → hexDigits requiredServiceBits = "0") ∧
      1 ≤ (hexDigits requiredServiceBits).length ∧
      (hexDigits requiredServiceBits).length ≤ 16) := by
  have plain : d.supportsServiceBitsFiltering = false ∨ requiredServiceBits = NODE_NETWORK →
      d.getHost NODE_NETWORK requiredServiceBits = d.host := by
    intro h
    unfold CDNSSeedData.getHost
    rw [if_pos]
    rcases h with h | h <;> simp [h]
  have other : d.supportsServiceBitsFiltering = true ∧ requiredServiceBits ≠ NODE_NETWORK →
      d.getHost NODE_NETWORK requiredServiceBits
        = "x" ++ hexDigits requiredServiceBits ++ "." ++ d.host := by
    intro h
    unfold CDNSSeedData.getHost
    rw [if_neg]
    · rfl
    · simp [h.1, h.2]
  have digits : (∀ c ∈ (hexDigits requiredServiceBits).toList, c ∈ lowerHexChars) ∧
      hexValue (hexDigits requiredServiceBits) = requiredServiceBits ∧
      (requiredServiceBits ≠ 0 → (hexDigits requiredServiceBits).toList.head? ≠ some '0') ∧
      (requiredServiceBits = 0 → hexDigits requiredServiceBits = "0") ∧
      1 ≤ (hexDigits requiredServiceBits).length ∧
      (hexDigits requiredServiceBits).length ≤ 16 := by
    refine ⟨hexDigits_chars _, hexValue_hexDigits _, hexDigits_head _, ?_,
      (hexDigits_length _ h64).1, (hexDigits_length _ h64).2⟩
    intro h0
    rw [h0]
    decide
  refine ⟨plain, other, ?_, ⟨?_, ?_⟩, digits⟩
  · unfold CDNSSeedData.getHost
    simp
  · intro hne
    by_contra hc
    apply hne
    apply plain
    by_cases hs : d.supportsServiceBitsFiltering = true
    · right
      by_contra hb
      exact hc ⟨hs, hb⟩
    · left
      simpa using hs
  · intro h
    rw [other h]
    exact strprintf_x_dot_ne requiredServiceBits d.host

/-- C4 at a filter-capable entry asked for the bits `0x1f`, `0xdeadbeef` and
`2 ^ 64 - 1`, with `NODE_NETWORK = 1`. -/
theorem getHost_spec_witness :
    (5 : Nat) < 2 ^ 64 ∧
      filterSeed.getHost 1 0x1f = "x1f.seed.example.org" ∧
      filterSeed.getHost 1 0xdeadbeef = "xdeadbeef.seed.example.org" ∧
      filterSeed.getHost 1 1 = "seed.example.org" ∧
      plainSeed.getHost 1 0x1f = "seed.example.org" ∧
      filterSeed.getHost 1 (2 ^ 64 - 1) = "xffffffffffffffff.seed.example.org" ∧
      hexValue (hexDigits (2 ^ 64 - 1)) = 2 ^ 64 - 1 ∧
      (hexDigits (2 ^ 64 - 1)).length ≤ 16 :=
  ⟨by decide,
    ((getHost_spec 1 filterSeed 0x1f (by decide)).2.1 ⟨rfl, by decide⟩).trans (by decide),
    ((getHost_spec 1 filterSeed 0xdeadbeef (by decide)).2.1 ⟨rfl, by decide⟩).trans (by decide),
    (getHost_spec 1 filterSeed 1 (by decide)).1 (Or.inr rfl),
    (getHost_spec 1 plainSeed 0x1f (by decide)).1 (Or.inl rfl),
    ((getHost_spec 1 filterSeed (2 ^ 64 - 1) (by decide)).2.1 ⟨rfl, by decide⟩).trans
      (by decide),
    (getHost_spec 1 filterSeed (2 ^ 64 - 1) (by decide)).2.2.2.2.2.1,
    (getHost_spec 1 filterSeed (2 ^ 64 - 1) (by decide)).2.2.2.2.2.2.2.2.2⟩

/-! ## C5: checkpoint heights -/

/-- C5. In each of the three checkpoint tables the heights, read in table
order, are strictly increasing: every entry is below the next one, and no
two entries share a height. -/
theorem checkpoint_heights_increasing :
    ∀ table ∈ [mapCheckpoints, mapCheckpointsTestnet, mapCheckpointsRegtest],
      (∀ i, i + 1 < (heights table).length →
        (heights table).getD i 0 < (heights table).getD (i + 1) 0) ∧
      List.Pairwise (fun a b => a < b) (heights table) ∧
      (heights table).Nodup := by
  intro table h
  simp only [List.mem_cons, List.mem_singleton, List.not_mem_nil, or_false] at h
  rcases h with rfl | rfl | rfl
  · refine ⟨?_, by decide, by decide⟩
    intro i hi
    have hlen : (heights mapCheckpoints).length = 17 := rfl
    rw [hlen] at hi
    have hi16 : i < 16 := by omega
    interval_cases i <;> decide
  · refine ⟨?_, by decide, by decide⟩
    intro i hi
    have hlen : (heights mapCheckpointsTestnet).length = 1 := rfl
    omega
  · refine ⟨?_, by decide, by decide⟩
    intro i hi
    have hlen : (heights mapCheckpointsRegtest).length = 1 := rfl
    omega

/-- C5 at the fourth and fifth entries of the main table, heights 562 and
14905. -/
theorem checkpoint_heights_increasing_witness :
    (heights mapCheckpoints).getD 3 0 = 562 ∧ (heights mapCheckpoints).getD 4 0 = 14905 ∧
      (heights mapCheckpoints).getD 3 0 < (heights mapCheckpoints).getD (3 + 1) 0 :=
  ⟨rfl, rfl,
    (checkpoint_heights_increasing mapCheckpoints (by simp)).1 3 (by decide)⟩

/-! ## C6: the time of a fixed seed -/

theorem foldl_append_singleton {α β : Type} (f : β → α) (l : List β) (init : List α) :
    l.foldl (fun acc i => acc ++ [f i]) init = init ++ l.map f := by
  induction l generalizing init with
  | nil => simp
  | cons b l ih => simp [List.foldl_cons, ih]

theorem convertSeed6_eq (env : Env) (k : Nat) (vSeedsOut : List CAddress)
    (data : Nat → SeedSpec6) (count : Nat) :
    convertSeed6 env k vSeedsOut data count
      = vSeedsOut ++ (List.range count).map (seedAddress env k data) := by
  unfold convertSeed6
  exact foldl_append_singleton (seedAddress env k data) (List.range count) vSeedsOut

theorem convertSeed6_getElem (env : Env) (k : Nat) (vSeedsOut : List CAddress)
    (data : Nat → SeedSpec6) (count i : Nat) (hi : i < count) :
    (convertSeed6 env k vSeedsOut data count)[vSeedsOut.length + i]?
      = some (seedAddress env k data i) := by
  rw [convertSeed6_eq, List.getElem?_append_right (Nat.le_add_right _ _)]
  simp [List.getElem?_range hi]

theorem seedTime_fits (bits : Nat) (now : Int) (r : Nat)
    (hlo : 0 ≤ now - (r : Int) - 604800)
    (hhi : now - (r : Int) - 604800 < 2 ^ min bits 64) :
    ((seedTime bits now r : Nat) : Int) = now - (r : Int) - 604800 := by
  have h64 : now - (r : Int) - 604800 < 2 ^ 64 :=
    lt_of_lt_of_le hhi (pow_le_pow_right₀ (by norm_num) (min_le_right _ _))
  have hb : now - (r : Int) - 604800 < 2 ^ bits :=
    lt_of_lt_of_le hhi (pow_le_pow_right₀ (by norm_num) (min_le_left _ _))
  have hw : nOneWeek = 604800 := by norm_num [nOneWeek]
  unfold seedTime
  rw [hw, Int.emod_eq_of_lt hlo h64, Int.emod_eq_of_lt hlo hb, Int.toNat_of_nonneg hlo]

/-- C6 as stated fails: with the clock at `2 ^ 32 + 1209600`, the draw `0`
and the 32-bit field `nTime`, the only address `convertSeed6` produces has
`nTime = 604800`, which is below `now - 2 weeks = 2 ^ 32`. -/
theorem seed_time_wraps :
    lateClockEnv.GetRand 0 nOneWeek.toNat < 604800 ∧
      convertSeed6 lateClockEnv 0 [] (seedArray lateClockEnv.pnSeed6_main) 1
        = [ { ip := [0, 0, 0, 0, 0, 0, 0, 0, 0, 0, 255, 255, 10, 0, 0, 1], port := 59682,
              nTime := 604800 } ] ∧
      ¬ (lateClockEnv.GetTime 0 - 2 * 604800 ≤ ((604800 : Nat) : Int)) :=
  ⟨by decide, by decide, by decide⟩

/-- C6, amended. Pass `i` of `convertSeed6` appends the address built from
entry `i`; when the clock reads `now` and the draw is `r` with
`0 <= r < 604800`, and `now - r - 604800` fits the unsigned field `nTime`
(it is at least zero and below `2 ^ nTimeBits`, the value being 64 bits wide
before it is stored), the time `t` of that address is `now - r - 604800`, so
`now - 2 weeks <= t <= now - 1 week`. -/
theorem seed_time_window (env : Env) (k : Nat) (vSeedsOut : List CAddress)
    (data : Nat → SeedSpec6) (count i : Nat) (hi : i < count)
    (hr : env.GetRand (k + i) nOneWeek.toNat < 604800)
    (hlo : 0 ≤ env.GetTime (k + i) - (env.GetRand (k + i) nOneWeek.toNat : Int) - 604800)
    (hhi : env.GetTime (k + i) - (env.GetRand (k + i) nOneWeek.toNat : Int) - 604800
      < 2 ^ min env.nTimeBits 64) :
    (convertSeed6 env k vSeedsOut data count)[vSeedsOut.length + i]?
        = some (seedAddress env k data i) ∧
      ((seedAddress env k data i).nTime : Int)
        = env.GetTime (k + i) - (env.GetRand (k + i) nOneWeek.toNat : Int) - 604800 ∧
      env.GetTime (k + i) - 2 * 604800 ≤ ((seedAddress env k data i).nTime : Int) ∧
      ((seedAddress env k data i).nTime : Int) ≤ env.GetTime (k + i) - 604800 := by
  have ht : ((seedAddress env k data i).nTime : Int)
      = env.GetTime (k + i) - (env.GetRand (k + i) nOneWeek.toNat : Int) - 604800 :=
    seedTime_fits env.nTimeBits _ _ hlo hhi
  refine ⟨convertSeed6_getElem env k vSeedsOut data count i hi, ht, ?_, ?_⟩
  · rw [ht]
    have : (env.GetRand (k + i) nOneWeek.toNat : Int) < 604800 := by exact_mod_cast hr
    omega
  · rw [ht]
    have : (0 : Int) ≤ (env.GetRand (k + i) nOneWeek.toNat : Int) := Int.ofNat_nonneg _
    omega

/-- C6 amended, at `sampleEnv`: the clock reads `1614113250`, the draw is `7`,
and the one address produced has time `1614113250 - 7 - 604800`. -/
theorem seed_time_window_witness :
    sampleEnv.GetRand 0 nOneWeek.toNat = 7 ∧ sampleEnv.GetTime 0 = 1614113250 ∧
      (convertSeed6 sampleEnv 0 [] (seedArray sampleEnv.pnSeed6_main) 1)[0]?
        = some (seedAddress sampleEnv 0 (seedArray sampleEnv.pnSeed6_main) 0) ∧
      ((seedAddress sampleEnv 0 (seedArray sampleEnv.pnSeed6_main) 0).nTime : Int)
        = 1614113250 - 7 - 604800 :=
  ⟨by decide, by decide,
    (seed_time_window sampleEnv 0 [] (seedArray sampleEnv.pnSeed6_main) 1 0
      (by decide) (by decide) (by decide) (by decide)).1,
    (seed_time_window sampleEnv 0 [] (seedArray sampleEnv.pnSeed6_main) 1 0
      (by decide) (by decide) (by decide) (by decide)).2.1⟩

/-! ## C7, C8, C9: the registry -/

theorem SelectParams_eq (network : Network) (g : Globals) :
    SelectParams network g =
      match ParamsRef.ofNetwork network with
      | .error e => .error e
      | .ok r => .ok (g.selected network r) := by
  unfold SelectParams
  cases network <;> rfl

theorem SelectParams_ok (network : Network) (g g1 : Globals)
    (h : SelectParams network g = .ok g1) :
    ∃ r, ParamsRef.ofNetwork network = .ok r ∧ g1 = g.selected network r := by
  rw [SelectParams_eq] at h
  cases network
  · exact ⟨.mainParams, rfl, by cases h; rfl⟩
  · exact ⟨.testNetParams, rfl, by cases h; rfl⟩
  · exact ⟨.regTestParams, rfl, by cases h; rfl⟩
  · cases h

theorem SelectParamsFromCommandLine_eq (env : Env) (g : Globals) :
    SelectParamsFromCommandLine env g =
      if env.NetworkIdFromCommandLine = .MAX_NETWORK_TYPES then .ok (false, g)
      else
        match ParamsRef.ofNetwork env.NetworkIdFromCommandLine with
        | .error e => .error e
        | .ok r => .ok (true, g.selected env.NetworkIdFromCommandLine r) := by
  unfold SelectParamsFromCommandLine
  by_cases h : env.NetworkIdFromCommandLine = .MAX_NETWORK_TYPES
  · simp [h, pure, Except.pure]
  · simp only [h, if_false, SelectParams_eq]
    cases hn : env.NetworkIdFromCommandLine <;>
      first
      | exact absurd hn h
      | simp [ParamsRef.ofNetwork, bind, Except.bind, pure, Except.pure]

/-- A call leaves the three static objects as they are. -/
theorem Call.run_objects (env : Env) (c : Call) (g g1 : Globals) (h : c.run env g = .ok g1) :
    g1.mainParams = g.mainParams ∧ g1.testNetParams = g.testNetParams ∧
      g1.regTestParams = g.regTestParams := by
  cases c with
  | select network =>
    obtain ⟨r, -, rfl⟩ := SelectParams_ok network g g1 h
    exact ⟨rfl, rfl, rfl⟩
  | selectFromCommandLine =>
    simp only [Call.run, SelectParamsFromCommandLine_eq] at h
    split_ifs at h with hm
    · cases h
      exact ⟨rfl, rfl, rfl⟩
    · cases hn : ParamsRef.ofNetwork env.NetworkIdFromCommandLine with
      | error e => rw [hn] at h; cases h
      | ok r =>
        rw [hn] at h
        cases h
        exact ⟨rfl, rfl, rfl⟩

theorem runCalls_objects (env : Env) (calls : List Call) :
    ∀ (g g1 : Globals), runCalls env calls g = .ok g1 →
      g1.mainParams = g.mainParams ∧ g1.testNetParams = g.testNetParams ∧
        g1.regTestParams = g.regTestParams := by
  induction calls with
  | nil =>
    intro g g1 h
    cases h
    exact ⟨rfl, rfl, rfl⟩
  | cons c cs ih =>
    intro g g1 h
    simp only [runCalls, bind, Except.bind] at h
    cases hc : c.run env g with
    | error e => rw [hc] at h; cases h
    | ok g2 =>
      rw [hc] at h
      obtain ⟨a1, a2, a3⟩ := Call.run_objects env c g g2 hc
      obtain ⟨b1, b2, b3⟩ := ih g2 g1 h
      exact ⟨b1.trans a1, b2.trans a2, b3.trans a3⟩

theorem runCalls_deref (env : Env) (calls : List Call) (g g1 : Globals)
    (h : runCalls env calls g = .ok g1) (r : ParamsRef) : g1.deref r = g.deref r := by
  obtain ⟨a1, a2, a3⟩ := runCalls_objects env calls g g1 h
  cases r
  · exact a1
  · exact a2
  · exact a3

theorem staticInit_ok (env : Env) (fuel : Nat) (base : CChainParams) (g0 : Globals)
    (h : staticInit env fuel base = .ok g0) :
    CMainParams env fuel 0 base = .ok g0.mainParams ∧
      CTestNetParams env fuel env.pnSeed6_main.length base = .ok g0.testNetParams ∧
      CRegTestParams env fuel (2 * env.pnSeed6_main.length + env.pnSeed6_test.length) base
        = .ok g0.regTestParams ∧
      g0.pCurrentParams = none ∧ g0.baseSelections = [] := by
  unfold staticInit at h
  cases h1 : CMainParams env fuel 0 base with
  | error e => simp [h1, bind, Except.bind] at h
  | ok pm =>
    cases h2 : CTestNetParams env fuel env.pnSeed6_main.length base with
    | error e => simp [h1, h2, bind, Except.bind] at h
    | ok pt =>
      cases h3 : CRegTestParams env fuel
          (2 * env.pnSeed6_main.length + env.pnSeed6_test.length) base with
      | error e => simp [h1, h2, h3, bind, Except.bind] at h
      | ok pr =>
        simp only [h1, h2, h3, bind, Except.bind, pure, Except.pure] at h
        cases h
        exact ⟨rfl, rfl, rfl, rfl, rfl⟩

theorem networkID_main (env : Env) (fuel k : Nat) (base p : CChainParams)
    (h : CMainParams env fuel k base = .ok p) : p.networkID = .MAIN := by
  obtain ⟨found, -, -, -, rfl⟩ := CMainParams_ok env fuel k base p h
  rfl

theorem networkID_testnet (env : Env) (fuel k : Nat) (base p : CChainParams)
    (h : CTestNetParams env fuel k base = .ok p) : p.networkID = .TESTNET := by
  obtain ⟨pm, found, -, -, -, rfl⟩ := CTestNetParams_ok env fuel k base p h
  rfl

theorem networkID_regtest (env : Env) (fuel k : Nat) (base p : CChainParams)
    (h : CRegTestParams env fuel k base = .ok p) : p.networkID = .REGTEST := by
  obtain ⟨pt, found, -, -, -, rfl⟩ := CRegTestParams_ok env fuel k base p h
  rfl

theorem staticInit_networkID (env : Env) (fuel : Nat) (base : CChainParams) (g0 : Globals)
    (h : staticInit env fuel base = .ok g0) (n : Network) (r : ParamsRef)
    (hr : ParamsRef.ofNetwork n = .ok r) : (g0.deref r).networkID = n := by
  obtain ⟨h1, h2, h3, -, -⟩ := staticInit_ok env fuel base g0 h
  cases n
  · cases hr; exact networkID_main _ _ _ _ _ h1
  · cases hr; exact networkID_testnet _ _ _ _ _ h2
  · cases hr; exact networkID_regtest _ _ _ _ _ h3
  · cases hr

/-- C7. Let the globals `g` be reached from static initialisation by any
calls, and let `n` be MAIN, TESTNET or REGTEST, so that `Params(n)` answers a
reference `r`. Then `SelectParams(n)` returns, afterwards `Params()` is the
object behind `r`, which is what `Params(n)` returns before and after the
call and after static initialisation, and its network identifier is `n`.
`Params(m)` is the same for every `m` whatever was selected. -/
theorem select_then_params (env : Env) (fuel : Nat) (base : CChainParams) (g0 : Globals)
    (h0 : staticInit env fuel base = .ok g0) (calls : List Call) (g : Globals)
    (hg : runCalls env calls g0 = .ok g) (n : Network) (r : ParamsRef)
    (hr : ParamsRef.ofNetwork n = .ok r) :
    n ≠ .MAX_NETWORK_TYPES ∧
      SelectParams n g = .ok (g.selected n r) ∧
      Params (g.selected n r) = .ok (g0.deref r) ∧
      ParamsNetwork (g.selected n r) n = .ok (g0.deref r) ∧
      ParamsNetwork g n = .ok (g0.deref r) ∧
      ParamsNetwork g0 n = .ok (g0.deref r) ∧
      (g0.deref r).networkID = n ∧
      (∀ m, ParamsNetwork (g.selected n r) m = ParamsNetwork g0 m) ∧
      (∀ m, ParamsNetwork g m = ParamsNetwork g0 m) := by
  have hd : ∀ r1, g.deref r1 = g0.deref r1 := runCalls_deref env calls g0 g hg
  have hd1 : ∀ r1, (g.selected n r).deref r1 = g0.deref r1 := by
    intro r1
    rw [← hd r1]
    cases r1 <;> rfl
  have hp : ∀ (g1 : Globals), (∀ r1, g1.deref r1 = g0.deref r1) →
      ∀ m, ParamsNetwork g1 m = ParamsNetwork g0 m := by
    intro g1 hg1 m
    unfold ParamsNetwork
    cases hm : ParamsRef.ofNetwork m with
    | error e => rfl
    | ok r1 => simp [bind, Except.bind, pure, Except.pure, hg1 r1]
  have h00 : ParamsNetwork g0 n = .ok (g0.deref r) := by
    unfold ParamsNetwork
    rw [hr]
    rfl
  refine ⟨?_, ?_, ?_, ?_, ?_, h00, staticInit_networkID env fuel base g0 h0 n r hr,
    hp _ hd1, hp _ hd⟩
  · intro hn
    rw [hn] at hr
    cases hr
  · rw [SelectParams_eq, hr]
  · show Except.ok ((g.selected n r).deref r) = Except.ok (g0.deref r)
    rw [hd1 r]
  · rw [hp _ hd1 n, h00]
  · rw [hp _ hd n, h00]

/-- C7 at `sampleEnv`: after `SelectParams(MAIN)` and a selection from the
command line, `SelectParams(REGTEST)` makes the regtest profile active. -/
theorem select_then_params_witness :
    staticInit sampleEnv 0 zeroParams = .ok sampleGlobals ∧
      runCalls sampleEnv [.select .MAIN, .selectFromCommandLine] sampleGlobals
        = .ok ((sampleGlobals.selected .MAIN .mainParams).selected .TESTNET .testNetParams) ∧
      Params (((sampleGlobals.selected .MAIN .mainParams).selected .TESTNET
          .testNetParams).selected .REGTEST .regTestParams)
        = .ok sampleRegTest ∧
      sampleRegTest.networkID = .REGTEST :=
  ⟨rfl, rfl,
    (select_then_params sampleEnv 0 zeroParams sampleGlobals rfl
      [.select .MAIN, .selectFromCommandLine]
      ((sampleGlobals.selected .MAIN .mainParams).selected .TESTNET .testNetParams) rfl
      .REGTEST .regTestParams rfl).2.2.1,
    (select_then_params sampleEnv 0 zeroParams sampleGlobals rfl
      [.select .MAIN, .selectFromCommandLine]
      ((sampleGlobals.selected .MAIN .mainParams).selected .TESTNET .testNetParams) rfl
      .REGTEST .regTestParams rfl).2.2.2.2.2.2.1⟩

/-- C8. `SelectParamsFromCommandLine` never aborts. It returns `false`
exactly when the network identifier of the command line is
`MAX_NETWORK_TYPES`, and then the globals, the active-profile pointer among
them, are left as they were, so that `Params()` still fails if nothing was
selected before. Otherwise it returns `true` and the active profile is the
profile `Params(network)` of that network. -/
theorem select_from_command_line (env : Env) (g : Globals) :
    (env.NetworkIdFromCommandLine = .MAX_NETWORK_TYPES →
      SelectParamsFromCommandLine env g = .ok (false, g) ∧
        (g.pCurrentParams = none → Params g = .error .assertion)) ∧
    (∀ g1, SelectParamsFromCommandLine env g = .ok (false, g1) →
      env.NetworkIdFromCommandLine = .MAX_NETWORK_TYPES ∧ g1 = g) ∧
    (env.NetworkIdFromCommandLine ≠ .MAX_NETWORK_TYPES →
      ∃ r, ParamsRef.ofNetwork env.NetworkIdFromCommandLine = .ok r ∧
        SelectParamsFromCommandLine env g
          = .ok (true, g.selected env.NetworkIdFromCommandLine r) ∧
        (g.selected env.NetworkIdFromCommandLine r).pCurrentParams = some r ∧
        Params (g.selected env.NetworkIdFromCommandLine r) = .ok (g.deref r) ∧
        ParamsNetwork g env.NetworkIdFromCommandLine = .ok (g.deref r)) ∧
    (∀ e, SelectParamsFromCommandLine env g ≠ .error e) := by
  have hvalid : env.NetworkIdFromCommandLine ≠ .MAX_NETWORK_TYPES →
      ∃ r, ParamsRef.ofNetwork env.NetworkIdFromCommandLine = .ok r := by
    intro hn
    cases hc : env.NetworkIdFromCommandLine
    · exact ⟨_, rfl⟩
    · exact ⟨_, rfl⟩
    · exact ⟨_, rfl⟩
    · exact absurd hc hn
  refine ⟨?_, ?_, ?_, ?_⟩
  · intro hm
    refine ⟨?_, ?_⟩
    · rw [SelectParamsFromCommandLine_eq, if_pos hm]
    · intro hnone
      unfold Params
      rw [hnone]
  · intro g1 h
    rw [SelectParamsFromCommandLine_eq] at h
    split_ifs at h with hm
    · cases h
      exact ⟨hm, rfl⟩
    · obtain ⟨r, hr⟩ := hvalid hm
      rw [hr] at h
      cases h
  · intro hn
    obtain ⟨r, hr⟩ := hvalid hn
    refine ⟨r, hr, ?_, rfl, ?_, ?_⟩
    · rw [SelectParamsFromCommandLine_eq, if_neg hn, hr]
    · show Except.ok ((g.selected env.NetworkIdFromCommandLine r).deref r) = Except.ok (g.deref r)
      cases r <;> rfl
    · unfold ParamsNetwork
      rw [hr]
      rfl
  · intro e h
    rw [SelectParamsFromCommandLine_eq] at h
    split_ifs at h with hm
    obtain ⟨r, hr⟩ := hvalid hm
    rw [hr] at h
    cases h

/-- C8 at `noNetworkEnv`, where the command line names no network: the call
returns `false`, the globals are unchanged and `Params()` still fails; and at
`sampleEnv`, where it names the testnet and `true` is returned. -/
theorem select_from_command_line_witness :
    noNetworkEnv.NetworkIdFromCommandLine = .MAX_NETWORK_TYPES ∧
      SelectParamsFromCommandLine noNetworkEnv sampleGlobals = .ok (false, sampleGlobals) ∧
      Params sampleGlobals = .error .assertion ∧
      SelectParamsFromCommandLine sampleEnv sampleGlobals
        = .ok (true, sampleGlobals.selected .TESTNET .testNetParams) :=
  ⟨rfl, ((select_from_command_line noNetworkEnv sampleGlobals).1 rfl).1,
    ((select_from_command_line noNetworkEnv sampleGlobals).1 rfl).2 rfl,
    rfl⟩

theorem Params_error_iff (g : Globals) :
    Params g = .error .assertion ↔ g.pCurrentParams = none := by
  unfold Params
  cases g.pCurrentParams <;> simp

theorem Call.run_pointer (env : Env) (c : Call) (g g1 : Globals) (h : c.run env g = .ok g1) :
    g1.pCurrentParams = none ↔
      g.pCurrentParams = none ∧
        (c = .selectFromCommandLine ∧ env.NetworkIdFromCommandLine = .MAX_NETWORK_TYPES) := by
  cases c with
  | select network =>
    obtain ⟨r, -, rfl⟩ := SelectParams_ok network g g1 h
    simp [Globals.selected]
  | selectFromCommandLine =>
    simp only [Call.run, SelectParamsFromCommandLine_eq] at h
    split_ifs at h with hm
    · cases h
      simp [hm]
    · cases hn : ParamsRef.ofNetwork env.NetworkIdFromCommandLine with
      | error e => rw [hn] at h; cases h
      | ok r =>
        rw [hn] at h
        cases h
        simp [Globals.selected, hm]

theorem runCalls_pointer (env : Env) (calls : List Call) :
    ∀ (g g1 : Globals), runCalls env calls g = .ok g1 →
      (g1.pCurrentParams = none ↔
        g.pCurrentParams = none ∧
          ∀ c ∈ calls,
            c = .selectFromCommandLine ∧
              env.NetworkIdFromCommandLine = .MAX_NETWORK_TYPES) := by
  induction calls with
  | nil =>
    intro g g1 h
    cases h
    simp
  | cons c cs ih =>
    intro g g1 h
    simp only [runCalls, bind, Except.bind] at h
    cases hc : c.run env g with
    | error e => rw [hc] at h; cases h
    | ok g2 =>
      rw [hc] at h
      rw [ih g2 g1 h, Call.run_pointer env c g g2 hc]
      simp only [List.mem_cons, forall_eq_or_imp]
      tauto

/-- C9. `Params()` ends in a failed assertion exactly when `pCurrentParams`
is null. After static initialisation and any calls that returned, that is so
exactly when no selection was made: every call was a selection from a
command line naming no network. Once a `SelectParams(n)` has returned, which
it does for MAIN, TESTNET and REGTEST only, `Params()` returns the object
behind the pointer after any further calls. -/
theorem params_fails_iff_unselected (env : Env) :
    (∀ g, Params g = .error .assertion ↔ g.pCurrentParams = none) ∧
    (∀ g e, Params g = .error e → g.pCurrentParams = none) ∧
    (∀ fuel base g0, staticInit env fuel base = .ok g0 →
      Params g0 = .error .assertion ∧
      ∀ calls g, runCalls env calls g0 = .ok g →
        (Params g = .error .assertion ↔
          ∀ c ∈ calls,
            c = .selectFromCommandLine ∧
              env.NetworkIdFromCommandLine = .MAX_NETWORK_TYPES)) ∧
    (∀ n g g1, SelectParams n g = .ok g1 →
      n ≠ .MAX_NETWORK_TYPES ∧
      ∀ calls g2, runCalls env calls g1 = .ok g2 →
        ∃ r, g2.pCurrentParams = some r ∧ Params g2 = .ok (g2.deref r)) := by
  refine ⟨Params_error_iff, ?_, ?_, ?_⟩
  · intro g e h
    unfold Params at h
    cases hp : g.pCurrentParams with
    | none => rfl
    | some r => rw [hp] at h; cases h
  · intro fuel base g0 h0
    obtain ⟨-, -, -, hnull, -⟩ := staticInit_ok env fuel base g0 h0
    refine ⟨(Params_error_iff g0).mpr hnull, ?_⟩
    intro calls g hg
    rw [Params_error_iff, runCalls_pointer env calls g0 g hg]
    simp [hnull]
  · intro n g g1 h
    obtain ⟨r, hr, rfl⟩ := SelectParams_ok n g g1 h
    refine ⟨?_, ?_⟩
    · intro hn
      rw [hn] at hr
      cases hr
    · intro calls g2 hg2
      have hne : g2.pCurrentParams ≠ none := by
        intro hnone
        have := (runCalls_pointer env calls _ g2 hg2).mp hnone
        simp [Globals.selected] at this
      cases hp : g2.pCurrentParams with
      | none => exact absurd hp hne
      | some r2 =>
        refine ⟨r2, rfl, ?_⟩
        unfold Params
        rw [hp]

/-- C9 at `noNetworkEnv`: after static initialisation and a selection from
the command line that names no network `Params()` fails; after
`SelectParams(TESTNET)` and one more such call it returns. -/
theorem params_fails_iff_unselected_witness :
    staticInit noNetworkEnv 0 zeroParams = .ok sampleGlobals ∧
      runCalls noNetworkEnv [.selectFromCommandLine] sampleGlobals = .ok sampleGlobals ∧
      Params sampleGlobals = .error .assertion ∧
      SelectParams .TESTNET sampleGlobals
        = .ok (sampleGlobals.selected .TESTNET .testNetParams) ∧
      Params (sampleGlobals.selected .TESTNET .testNetParams) ≠ .error .assertion :=
  ⟨rfl, rfl,
    (((params_fails_iff_unselected noNetworkEnv).2.2.1 0 zeroParams sampleGlobals rfl).2
      [.selectFromCommandLine] sampleGlobals rfl).mpr (by simp [noNetworkEnv]),
    rfl,
    by
      obtain ⟨r, -, hr⟩ :=
        ((params_fails_iff_unselected noNetworkEnv).2.2.2 .TESTNET sampleGlobals
          (sampleGlobals.selected .TESTNET .testNetParams) rfl).2
          [.selectFromCommandLine] (sampleGlobals.selected .TESTNET .testNetParams) rfl
      rw [hr]
      simp⟩

/-! ## C11: the order of the search -/

theorem searchStep_searchOrder (g : CBlock) (i : Nat) :
    searchStep (searchOrder g i) = searchOrder g (i + 1) := by
  have hn : ((g.nNonce + i) % 2 ^ 32 + 1) % 2 ^ 32 = (g.nNonce + (i + 1)) % 2 ^ 32 := by omega
  by_cases hw : (g.nNonce + (i + 1)) % 2 ^ 32 = 0
  · have ht : ((g.nTime + (g.nNonce + i) / 2 ^ 32) % 2 ^ 32 + 1) % 2 ^ 32
        = (g.nTime + (g.nNonce + (i + 1)) / 2 ^ 32) % 2 ^ 32 := by omega
    simp only [searchStep, searchOrder, hn, hw, if_true, ht]
  · have ht : (g.nTime + (g.nNonce + i) / 2 ^ 32) % 2 ^ 32
        = (g.nTime + (g.nNonce + (i + 1)) / 2 ^ 32) % 2 ^ 32 := by omega
    simp only [searchStep, searchOrder, hn, hw, if_false, ht]

theorem iterate_searchStep (g : CBlock) (hn : g.nNonce < 2 ^ 32) (ht : g.nTime < 2 ^ 32)
    (i : Nat) : searchStep^[i] g = searchOrder g i := by
  induction i with
  | zero =>
    have h1 : (g.nNonce + 0) % 2 ^ 32 = g.nNonce := by omega
    have h2 : (g.nTime + (g.nNonce + 0) / 2 ^ 32) % 2 ^ 32 = g.nTime := by omega
    simp only [Function.iterate_zero, id_eq, searchOrder, h1, h2]
  | succ i ih =>
    rw [Function.iterate_succ_apply', ih, searchStep_searchOrder]

theorem iterate_searchStep_same (g : CBlock) (i : Nat) :
    sameOutsideSearch g (searchStep^[i] g) := by
  induction i with
  | zero => simp [sameOutsideSearch]
  | succ i ih =>
    rw [Function.iterate_succ_apply']
    have h2 := searchStep_same (searchStep^[i] g)
    unfold sameOutsideSearch at *
    exact ⟨h2.1.trans ih.1, h2.2.1.trans ih.2.1, h2.2.2.1.trans ih.2.2.1,
      h2.2.2.2.1.trans ih.2.2.2.1, h2.2.2.2.2.trans ih.2.2.2.2⟩

theorem searchLoop_first (env : Env) (hashTarget : Nat) :
    ∀ (fuel : Nat) (g : CBlock) (p : Nat) (r : CBlock × Nat),
      searchLoop env hashTarget fuel g p = .ok r →
        ∃ m, m ≤ fuel ∧ r = (searchStep^[m] g, p + m) ∧
          env.GetHash (searchStep^[m] g) ≤ hashTarget ∧
          ∀ i, i < m → hashTarget < env.GetHash (searchStep^[i] g) := by
  intro fuel
  induction fuel with
  | zero =>
    intro g p r h
    unfold searchLoop at h
    split at h
    · cases h
    · cases h
      exact ⟨0, le_refl _, rfl, Nat.not_lt.mp ‹_›, fun i hi => absurd hi (Nat.not_lt_zero i)⟩
  | succ fuel ih =>
    intro g p r h
    unfold searchLoop at h
    split at h
    · rename_i hgt
      obtain ⟨m, hm, hr, hle, hbefore⟩ := ih _ _ _ h
      refine ⟨m + 1, Nat.succ_le_succ hm, ?_, ?_, ?_⟩
      · rw [hr, Function.iterate_succ_apply, Nat.add_assoc, Nat.add_comm 1 m]
      · rw [Function.iterate_succ_apply]
        exact hle
      · intro i hi
        cases i with
        | zero => exact hgt
        | succ i =>
          rw [Function.iterate_succ_apply]
          exact hbefore i (Nat.lt_of_succ_lt_succ hi)
    · cases h
      exact ⟨0, Nat.zero_le _, rfl, Nat.not_lt.mp ‹_›, fun i hi => absurd hi (Nat.not_lt_zero i)⟩

theorem searchLoop_reaches (env : Env) (hashTarget : Nat) :
    ∀ (n fuel : Nat) (g : CBlock) (p : Nat), n ≤ fuel →
      env.GetHash (searchStep^[n] g) ≤ hashTarget →
      (∀ i, i < n → hashTarget < env.GetHash (searchStep^[i] g)) →
      searchLoop env hashTarget fuel g p = .ok (searchStep^[n] g, p + n) := by
  intro n
  induction n with
  | zero =>
    intro fuel g p _ hle _
    exact searchLoop_done env hashTarget fuel g p hle
  | succ n ih =>
    intro fuel g p hfuel hle hbefore
    obtain ⟨fuel, rfl⟩ : ∃ f, fuel = f + 1 := ⟨fuel - 1, by omega⟩
    have h0 : hashTarget < env.GetHash g := hbefore 0 (Nat.succ_pos n)
    unfold searchLoop
    rw [if_pos h0, Function.iterate_succ_apply,
      ih fuel (searchStep g) (p + 1) (Nat.le_of_succ_le_succ hfuel)
        (by rw [← Function.iterate_succ_apply]; exact hle)
        (fun i hi => by
          rw [← Function.iterate_succ_apply]
          exact hbefore (i + 1) (Nat.succ_lt_succ hi))]
    rw [Nat.add_assoc, Nat.add_comm 1 n]

theorem searchStep_nNonce (g : CBlock) : (searchStep g).nNonce = (g.nNonce + 1) % 2 ^ 32 := by
  simp only [searchStep]
  split_ifs <;> rfl

theorem searchStep_nTime (g : CBlock) :
    (searchStep g).nTime
      = if (g.nNonce + 1) % 2 ^ 32 = 0 then (g.nTime + 1) % 2 ^ 32 else g.nTime := by
  simp only [searchStep]
  split_ifs <;> rfl

theorem searchGenesis_runs (env : Env) (expected fuel : Nat) (g : CBlock)
    (hrun : env.GetHash g ≠ expected) :
    searchGenesis env expected fuel g = searchLoop env (env.SetCompact g.nBits) fuel g 0 := by
  unfold searchGenesis
  rw [if_pos hrun]

theorem searchOrder_wrap (g : CBlock) (n : Nat) (hn : g.nNonce < 2 ^ 32) (hn1 : n < 2 ^ 32)
    (ht : g.nTime + 1 < 2 ^ 32) :
    searchOrder g (2 ^ 32 - g.nNonce + n) = { g with nNonce := n, nTime := g.nTime + 1 } := by
  have h1 : (g.nNonce + (2 ^ 32 - g.nNonce + n)) % 2 ^ 32 = n := by omega
  have h2 : (g.nTime + (g.nNonce + (2 ^ 32 - g.nNonce + n)) / 2 ^ 32) % 2 ^ 32
      = g.nTime + 1 := by omega
  simp only [searchOrder, h1, h2]

/-- C11. When the search runs from a template `g` (its hash is not the
expected one), the record visited after `i` passes is `searchOrder g i`: the
nonce is incremented modulo `2 ^ 32` at each pass and the time, a 32-bit
counter as well, goes up by one exactly at the passes where the nonce wraps
to zero; Merkle root, bits, version, previous-block hash and transactions
stay those of `g`. A run that returns has stopped at the first visited
record, `g` included, whose hash is at most the target. If some visited
record meets the target, the run returns that first record for every step
budget from its index on. A run from `g` that wraps the nonce once before
any solution returns the record with nonce `n` and time `g.nTime + 1`, which
is what a run from that record itself, pre-solved, returns. -/
theorem search_visits_in_order (env : Env) (expected : Nat) (g : CBlock)
    (hn : g.nNonce < 2 ^ 32) (ht : g.nTime < 2 ^ 32) (hrun : env.GetHash g ≠ expected) :
    (∀ i, searchStep^[i] g = searchOrder g i) ∧
    (∀ i, (searchOrder g (i + 1)).nNonce = ((searchOrder g i).nNonce + 1) % 2 ^ 32 ∧
      ((searchOrder g (i + 1)).nNonce = 0 →
        (searchOrder g (i + 1)).nTime = ((searchOrder g i).nTime + 1) % 2 ^ 32) ∧
      ((searchOrder g (i + 1)).nNonce ≠ 0 →
        (searchOrder g (i + 1)).nTime = (searchOrder g i).nTime)) ∧
    (∀ i, sameOutsideSearch g (searchOrder g i)) ∧
    (∀ fuel r, searchGenesis env expected fuel g = .ok r →
      r.2 ≤ fuel ∧ r.1 = searchOrder g r.2 ∧ sameOutsideSearch g r.1 ∧
        env.GetHash r.1 ≤ env.SetCompact g.nBits ∧
        ∀ i, i < r.2 → env.SetCompact g.nBits < env.GetHash (searchOrder g i)) ∧
    (∀ n, env.GetHash (searchOrder g n) ≤ env.SetCompact g.nBits →
      ∃ m, m ≤ n ∧ env.GetHash (searchOrder g m) ≤ env.SetCompact g.nBits ∧
        (∀ i, i < m → env.SetCompact g.nBits < env.GetHash (searchOrder g i)) ∧
        ∀ fuel, m ≤ fuel → searchGenesis env expected fuel g = .ok (searchOrder g m, m)) ∧
    (∀ n, n < 2 ^ 32 → g.nTime + 1 < 2 ^ 32 →
      env.GetHash { g with nNonce := n, nTime := g.nTime + 1 } ≤ env.SetCompact g.nBits →
      (∀ i, i < 2 ^ 32 - g.nNonce + n →
        env.SetCompact g.nBits < env.GetHash (searchOrder g i)) →
      ∀ fuel, 2 ^ 32 - g.nNonce + n ≤ fuel →
        searchGenesis env expected fuel g
          = .ok ({ g with nNonce := n, nTime := g.nTime + 1 }, 2 ^ 32 - g.nNonce + n) ∧
        searchGenesis env expected fuel { g with nNonce := n, nTime := g.nTime + 1 }
          = .ok ({ g with nNonce := n, nTime := g.nTime + 1 }, 0)) := by
  have hit : ∀ i, searchStep^[i] g = searchOrder g i := iterate_searchStep g hn ht
  have reach : ∀ m, env.GetHash (searchOrder g m) ≤ env.SetCompact g.nBits →
      (∀ i, i < m → env.SetCompact g.nBits < env.GetHash (searchOrder g i)) →
      ∀ fuel, m ≤ fuel → searchGenesis env expected fuel g = .ok (searchOrder g m, m) := by
    intro m hle hbefore fuel hfuel
    rw [searchGenesis_runs env expected fuel g hrun]
    have := searchLoop_reaches env (env.SetCompact g.nBits) m fuel g 0 hfuel
      (by rw [hit]; exact hle) (fun i hi => by rw [hit]; exact hbefore i hi)
    rw [this, hit, Nat.zero_add]
  refine ⟨hit, ?_, ?_, ?_, ?_, ?_⟩
  · intro i
    have hs := searchStep_searchOrder g i
    refine ⟨?_, ?_, ?_⟩
    · rw [← hs]
      exact searchStep_nNonce _
    · intro hz
      rw [← hs] at hz ⊢
      rw [searchStep_nNonce] at hz
      rw [searchStep_nTime, if_pos hz]
    · intro hz
      rw [← hs] at hz ⊢
      rw [searchStep_nNonce] at hz
      rw [searchStep_nTime, if_neg hz]
  · intro i
    rw [← hit]
    exact iterate_searchStep_same g i
  · intro fuel r h
    rw [searchGenesis_runs env expected fuel g hrun] at h
    obtain ⟨m, hm, hr, hle, hbefore⟩ := searchLoop_first env _ fuel g 0 r h
    subst hr
    simp only [Nat.zero_add]
    refine ⟨hm, hit m, iterate_searchStep_same g m, hle, ?_⟩
    intro i hi
    rw [← hit]
    exact hbefore i hi
  · intro n hle
    classical
    have hex : ∃ m, env.GetHash (searchOrder g m) ≤ env.SetCompact g.nBits := ⟨n, hle⟩
    refine ⟨Nat.find hex, Nat.find_min' hex hle, Nat.find_spec hex, ?_, ?_⟩
    · intro i hi
      exact Nat.not_le.mp (Nat.find_min hex hi)
    · exact reach (Nat.find hex) (Nat.find_spec hex)
        (fun i hi => Nat.not_le.mp (Nat.find_min hex hi))
  · intro n hn1 ht1 hle hbefore fuel hfuel
    have hw := searchOrder_wrap g n hn hn1 ht1
    refine ⟨?_, ?_⟩
    · rw [← hw]
      exact reach _ (by rw [hw]; exact hle) hbefore fuel hfuel
    · unfold searchGenesis
      split
      · exact searchLoop_done env _ fuel _ 0 hle
      · rfl

/-- C11 at `wrapEnv`: the run from nonce `2 ^ 32 - 1` and time `1610409600`
visits nonce `0` and then nonce `1` at time `1610409601`, where it stops
after two passes with the record that the pre-solved template gives after
none. -/
theorem search_visits_in_order_witness :
    wrapStart.nNonce < 2 ^ 32 ∧ wrapStart.nTime < 2 ^ 32 ∧
      wrapEnv.GetHash wrapStart ≠ hashGenesisMain ∧
      searchStep^[2] wrapStart = wrapSolved ∧
      searchGenesis wrapEnv hashGenesisMain 2 wrapStart = .ok (wrapSolved, 2) ∧
      searchGenesis wrapEnv hashGenesisMain 2 wrapSolved = .ok (wrapSolved, 0) :=
  ⟨by decide, by decide, by decide,
    ((search_visits_in_order wrapEnv hashGenesisMain wrapStart (by decide) (by decide)
      (by decide)).1 2).trans (by decide),
    ((search_visits_in_order wrapEnv hashGenesisMain wrapStart (by decide) (by decide)
      (by decide)).2.2.2.2.2 1 (by decide) (by decide) (by decide)
      (fun i hi => by
        have hi2 : i < 2 := hi
        interval_cases i <;> decide)
      2 (by decide)).1,
    ((search_visits_in_order wrapEnv hashGenesisMain wrapStart (by decide) (by decide)
      (by decide)).2.2.2.2.2 1 (by decide) (by decide) (by decide)
      (fun i hi => by
        have hi2 : i < 2 := hi
        interval_cases i <;> decide)
      2 (by decide)).2⟩

/-! ## C12: what the derived profiles keep of the main profile -/

/-- C12 as stated fails: in `sampleEnv` the three constructors complete, and
the testnet profile has coinbase maturity 15 and masternode count drift 4
where the main profile has 100 and 20; the regtest profile has these two
values of the testnet profile and subsidy-halving interval 150 where the main
profile has 210000. -/
theorem derived_profiles_override_maturity :
    CMainParams sampleEnv 0 0 zeroParams = .ok sampleMain ∧
      CTestNetParams sampleEnv 0 0 zeroParams = .ok sampleTestNet ∧
      CRegTestParams sampleEnv 0 0 zeroParams = .ok sampleRegTest ∧
      sampleMain.nMaturity = 100 ∧ sampleTestNet.nMaturity = 15 ∧
      sampleRegTest.nMaturity = 15 ∧
      sampleMain.nMasternodeCountDrift = 20 ∧ sampleTestNet.nMasternodeCountDrift = 4 ∧
      sampleRegTest.nMasternodeCountDrift = 4 ∧
      sampleMain.nSubsidyHalvingInterval = 210000 ∧
      sampleRegTest.nSubsidyHalvingInterval = 150 :=
  ⟨rfl, rfl, rfl, rfl, rfl, rfl, rfl, rfl, rfl, rfl, rfl⟩

/-- C12, amended. A completed testnet or regtest profile equals the main
profile built from the same inputs on the fields its constructor leaves
alone or assigns the same value: proof-of-work limit, reorganization-depth
limit (100), last proof-of-work block, proof-of-authority start block,
maximum number of proof-of-stake blocks, the flags for skipping the
proof-of-work check and for headers-first syncing, and the version,
previous-block hash, Merkle root and transactions of the genesis block; the
testnet profile also keeps the subsidy-halving interval 210000 and the genesis
bits. The testnet constructor overrides the coinbase maturity (15, not 100)
and the masternode count drift (4, not 20), which the regtest profile
inherits, and the regtest constructor overrides the subsidy-halving interval
(150). -/
theorem derived_profiles_kept_fields (env : Env) (fuel k : Nat) (base pm : CChainParams)
    (hm : CMainParams env fuel k base = .ok pm) :
    (pm.nMaturity = 100 ∧ pm.nSubsidyHalvingInterval = 210000 ∧
      pm.nMaxReorganizationDepth = 100 ∧ pm.nMasternodeCountDrift = 20) ∧
    (∀ pt, CTestNetParams env fuel k base = .ok pt →
      (pt.nSubsidyHalvingInterval = 210000 ∧ pt.nMaxReorganizationDepth = 100 ∧
        pt.nMaturity = 15 ∧ pt.nMasternodeCountDrift = 4) ∧
      (pt.bnProofOfWorkLimit = pm.bnProofOfWorkLimit ∧
        pt.nSubsidyHalvingInterval = pm.nSubsidyHalvingInterval ∧
        pt.nMaxReorganizationDepth = pm.nMaxReorganizationDepth ∧
        pt.nLastPOWBlock = pm.nLastPOWBlock ∧ pt.nStartPOABlock = pm.nStartPOABlock ∧
        pt.nMaxNumPoSBlocks = pm.nMaxNumPoSBlocks ∧
        pt.fSkipProofOfWorkCheck = pm.fSkipProofOfWorkCheck ∧
        pt.fHeadersFirstSyncingActive = pm.fHeadersFirstSyncingActive ∧
        pt.genesis.nBits = pm.genesis.nBits ∧ sameOutsideSearch pm.genesis pt.genesis)) ∧
    (∀ pr, CRegTestParams env fuel k base = .ok pr →
      (pr.nSubsidyHalvingInterval = 150 ∧ pr.nMaxReorganizationDepth = 100 ∧
        pr.nMaturity = 15 ∧ pr.nMasternodeCountDrift = 4) ∧
      (pr.bnProofOfWorkLimit = pm.bnProofOfWorkLimit ∧
        pr.nMaxReorganizationDepth = pm.nMaxReorganizationDepth ∧
        pr.nLastPOWBlock = pm.nLastPOWBlock ∧ pr.nStartPOABlock = pm.nStartPOABlock ∧
        pr.nMaxNumPoSBlocks = pm.nMaxNumPoSBlocks ∧
        pr.fSkipProofOfWorkCheck = pm.fSkipProofOfWorkCheck ∧
        pr.fHeadersFirstSyncingActive = pm.fHeadersFirstSyncingActive ∧
        pr.genesis.nVersion = pm.genesis.nVersion ∧
        pr.genesis.hashPrevBlock = pm.genesis.hashPrevBlock ∧
        pr.genesis.hashMerkleRoot = pm.genesis.hashMerkleRoot ∧
        pr.genesis.vtx = pm.genesis.vtx)) := by
  have test : ∀ pt, CTestNetParams env fuel k base = .ok pt →
      (pt.nSubsidyHalvingInterval = 210000 ∧ pt.nMaxReorganizationDepth = 100 ∧
        pt.nMaturity = 15 ∧ pt.nMasternodeCountDrift = 4) ∧
      (pt.bnProofOfWorkLimit = pm.bnProofOfWorkLimit ∧
        pt.nSubsidyHalvingInterval = pm.nSubsidyHalvingInterval ∧
        pt.nMaxReorganizationDepth = pm.nMaxReorganizationDepth ∧
        pt.nLastPOWBlock = pm.nLastPOWBlock ∧ pt.nStartPOABlock = pm.nStartPOABlock ∧
        pt.nMaxNumPoSBlocks = pm.nMaxNumPoSBlocks ∧
        pt.fSkipProofOfWorkCheck = pm.fSkipProofOfWorkCheck ∧
        pt.fHeadersFirstSyncingActive = pm.fHeadersFirstSyncingActive ∧
        pt.genesis.nBits = pm.genesis.nBits ∧ sameOutsideSearch pm.genesis pt.genesis) := by
    intro pt ht
    obtain ⟨pm1, found, hm1, hs, -, rfl⟩ := CTestNetParams_ok env fuel k base pt ht
    rw [hm] at hm1
    cases hm1
    have hsame := searchGenesis_same env _ _ _ _ hs
    obtain ⟨fm, -, -, -, rfl⟩ := CMainParams_ok env fuel k base pm hm
    exact ⟨⟨rfl, rfl, rfl, rfl⟩, rfl, rfl, rfl, rfl, rfl, rfl, rfl, rfl, hsame.2.2.2.1, hsame⟩
  refine ⟨?_, test, ?_⟩
  · obtain ⟨fm, -, -, -, rfl⟩ := CMainParams_ok env fuel k base pm hm
    exact ⟨rfl, rfl, rfl, rfl⟩
  · intro pr hr
    obtain ⟨pt, found, ht, hs, -, rfl⟩ := CRegTestParams_ok env fuel k base pr hr
    obtain ⟨-, h1, h2, h3, h4, h5, h6, h7, h8, -, g1, g2, g3, -, g5⟩ := test pt ht
    have hsame := searchGenesis_same env _ _ _ _ hs
    obtain ⟨pm1, ft, hm1, -, -, rfl⟩ := CTestNetParams_ok env fuel k base pt ht
    rw [hm] at hm1
    cases hm1
    obtain ⟨fm, -, -, -, rfl⟩ := CMainParams_ok env fuel k base pm hm
    exact ⟨⟨rfl, rfl, rfl, rfl⟩, rfl, rfl, rfl, rfl, rfl, rfl, rfl,
      hsame.1.trans g1, hsame.2.1.trans g2, hsame.2.2.1.trans g3, hsame.2.2.2.2.trans g5⟩

/-- C12 amended, at `sampleEnv`. -/
theorem derived_profiles_kept_fields_witness :
    CMainParams sampleEnv 0 0 zeroParams = .ok sampleMain ∧
      CTestNetParams sampleEnv 0 0 zeroParams = .ok sampleTestNet ∧
      CRegTestParams sampleEnv 0 0 zeroParams = .ok sampleRegTest ∧
      sampleTestNet.nMaxReorganizationDepth = sampleMain.nMaxReorganizationDepth ∧
      sampleRegTest.nMaxReorganizationDepth = sampleMain.nMaxReorganizationDepth ∧
      sampleTestNet.nSubsidyHalvingInterval = 210000 :=
  ⟨rfl, rfl, rfl,
    ((derived_profiles_kept_fields sampleEnv 0 0 zeroParams sampleMain rfl).2.1
      sampleTestNet rfl).2.2.2.1,
    ((derived_profiles_kept_fields sampleEnv 0 0 zeroParams sampleMain rfl).2.2
      sampleRegTest rfl).2.2.1,
    ((derived_profiles_kept_fields sampleEnv 0 0 zeroParams sampleMain rfl).2.1
      sampleTestNet rfl).1.1⟩

/-! ## C13: the list `convertSeed6` produces -/

theorem map_range_getD {α β : Type} (l : List α) (d : α) (f : α → β) :
    (List.range l.length).map (fun i => f (l.getD i d)) = l.map f := by
  apply List.ext_getElem
  · simp
  · intro i h1 h2
    simp at h1 h2
    simp [List.getD_eq_getElem?_getD, List.getElem?_eq_getElem h2]

/-- C13. For a seed table of `n` entries `convertSeed6` returns the output
vector it was given followed by exactly `n` addresses in table order, the
`i`-th with the address bytes and the port of the `i`-th entry; the elements
the vector held before are unchanged. On an empty vector the result is the
list of the `n` converted entries. -/
theorem convertSeed6_appends (env : Env) (k : Nat) (vSeedsOut : List CAddress)
    (table : List SeedSpec6) :
    (convertSeed6 env k vSeedsOut (seedArray table) table.length).length
        = vSeedsOut.length + table.length ∧
      (convertSeed6 env k vSeedsOut (seedArray table) table.length).take vSeedsOut.length
        = vSeedsOut ∧
      ((convertSeed6 env k vSeedsOut (seedArray table) table.length).drop
          vSeedsOut.length).map (fun a => (a.ip, a.port))
        = table.map (fun e => (e.addr, e.port)) ∧
      (∀ i e, table[i]? = some e →
        (convertSeed6 env k vSeedsOut (seedArray table) table.length)[vSeedsOut.length + i]?
            = some (seedAddress env k (seedArray table) i) ∧
          (seedAddress env k (seedArray table) i).ip = e.addr ∧
          (seedAddress env k (seedArray table) i).port = e.port) ∧
      convertSeed6 env k [] (seedArray table) table.length
        = (List.range table.length).map (seedAddress env k (seedArray table)) ∧
      (convertSeed6 env k [] (seedArray table) table.length).length = table.length := by
  have heq := convertSeed6_eq env k vSeedsOut (seedArray table) table.length
  refine ⟨?_, ?_, ?_, ?_, ?_, ?_⟩
  · rw [heq]
    simp
  · rw [heq]
    simp
  · rw [heq, List.drop_left, List.map_map]
    exact map_range_getD table { addr := [], port := 0 } (fun e => (e.addr, e.port))
  · intro i e hi
    have hlt : i < table.length := by
      by_contra hge
      rw [List.getElem?_eq_none (Nat.not_lt.mp hge)] at hi
      cases hi
    have hget : seedArray table i = e := by
      unfold seedArray
      rw [List.getD_eq_getElem?_getD, hi]
      rfl
    refine ⟨convertSeed6_getElem env k vSeedsOut (seedArray table) table.length i hlt, ?_, ?_⟩
    · show (seedArray table i).addr = e.addr
      rw [hget]
    · show (seedArray table i).port = e.port
      rw [hget]
  · rw [convertSeed6_eq]
    rfl
  · rw [convertSeed6_eq]
    simp

/-- C13 at `sampleTable`, two entries, converted after one address the
vector already held. -/
theorem convertSeed6_appends_witness :
    sampleTable[1]?
        = some ⟨[0, 0, 0, 0, 0, 0, 0, 0, 0, 0, 255, 255, 10, 0, 0, 2], 59684⟩ ∧
      (convertSeed6 sampleEnv 0 [sampleAddress] (seedArray sampleTable) 2).length = 3 ∧
      (convertSeed6 sampleEnv 0 [sampleAddress] (seedArray sampleTable) 2)[2]?
        = some (seedAddress sampleEnv 0 (seedArray sampleTable) 1) ∧
      (seedAddress sampleEnv 0 (seedArray sampleTable) 1).port = 59684 :=
  ⟨rfl, (convertSeed6_appends sampleEnv 0 [sampleAddress] sampleTable).1,
    ((convertSeed6_appends sampleEnv 0 [sampleAddress] sampleTable).2.2.2.1 1 _ rfl).1,
    ((convertSeed6_appends sampleEnv 0 [sampleAddress] sampleTable).2.2.2.1 1 _ rfl).2.2⟩

/-! ## C14: the seed lists of the derived profiles -/

/-- C14. A completed regtest profile has no fixed seeds and no DNS seeds,
although it is built on the testnet profile. The DNS seeds of a completed
testnet profile are exactly its own entry `testnet.prcycoin-seeds.com`; none
of the twelve entries the main constructor pushes is among them. -/
theorem derived_seed_lists (env : Env) (fuel k : Nat) (base : CChainParams) :
    vSeedsMain.length = 12 ∧
    (∀ pm, CMainParams env fuel k base = .ok pm → pm.vSeeds = base.vSeeds ++ vSeedsMain) ∧
    (∀ pt, CTestNetParams env fuel k base = .ok pt →
      pt.vSeeds
          = [ { name := "testnet.prcycoin-seeds.com", host := "testnet.prcycoin-seeds.com" } ] ∧
        (∀ d, d ∈ vSeedsMain → d ∉ pt.vSeeds) ∧
        pt.vFixedSeeds
          = convertSeed6 env (k + env.pnSeed6_main.length) [] (seedArray env.pnSeed6_test)
              env.pnSeed6_test.length) ∧
    (∀ pr, CRegTestParams env fuel k base = .ok pr → pr.vFixedSeeds = [] ∧ pr.vSeeds = []) := by
  refine ⟨rfl, ?_, ?_, ?_⟩
  · intro pm hm
    obtain ⟨found, -, -, -, rfl⟩ := CMainParams_ok env fuel k base pm hm
    rfl
  · intro pt ht
    obtain ⟨pm, found, -, -, -, rfl⟩ := CTestNetParams_ok env fuel k base pt ht
    refine ⟨rfl, ?_, rfl⟩
    intro d hd
    show d ∉ [ ({ name := "testnet.prcycoin-seeds.com",
                  host := "testnet.prcycoin-seeds.com" } : CDNSSeedData) ]
    intro hmem
    rw [List.mem_singleton] at hmem
    subst hmem
    revert hd
    decide
  · intro pr hr
    obtain ⟨pt, found, -, -, -, rfl⟩ := CRegTestParams_ok env fuel k base pr hr
    exact ⟨rfl, rfl⟩

/-- C14 at `sampleEnv`. -/
theorem derived_seed_lists_witness :
    CTestNetParams sampleEnv 0 0 zeroParams = .ok sampleTestNet ∧
      CRegTestParams sampleEnv 0 0 zeroParams = .ok sampleRegTest ∧
      sampleTestNet.vSeeds.length = 1 ∧ sampleRegTest.vSeeds = [] ∧
      sampleRegTest.vFixedSeeds = [] :=
  ⟨rfl, rfl,
    congrArg List.length
      ((derived_seed_lists sampleEnv 0 0 zeroParams).2.2.1 sampleTestNet rfl).1,
    ((derived_seed_lists sampleEnv 0 0 zeroParams).2.2.2 sampleRegTest rfl).2,
    ((derived_seed_lists sampleEnv 0 0 zeroParams).2.2.2 sampleRegTest rfl).1⟩

/-! ## C15: target timespan and spacing -/

/-- C15, the code at the claim. A completed main or testnet profile has
target timespan `1 * 60 = 60` seconds, not the 86400 seconds of one day that
the claim and the comment on these assignments give; a completed regtest
profile has `24 * 60 * 60 = 86400`. The target spacing is 60 seconds in all
three. -/
theorem target_timespan_values (env : Env) (fuel k : Nat) (base : CChainParams) :
    (∀ pm, CMainParams env fuel k base = .ok pm →
      pm.nTargetTimespan = 60 ∧ pm.nTargetTimespan ≠ 86400 ∧ pm.nTargetSpacing = 60) ∧
    (∀ pt, CTestNetParams env fuel k base = .ok pt →
      pt.nTargetTimespan = 60 ∧ pt.nTargetTimespan ≠ 86400 ∧ pt.nTargetSpacing = 60) ∧
    (∀ pr, CRegTestParams env fuel k base = .ok pr →
      pr.nTargetTimespan = 86400 ∧ pr.nTargetSpacing = 60) := by
  refine ⟨?_, ?_, ?_⟩
  · intro pm hm
    have h1 : pm.nTargetTimespan = 60 ∧ pm.nTargetSpacing = 60 := by
      obtain ⟨found, -, -, -, rfl⟩ := CMainParams_ok env fuel k base pm hm
      exact ⟨rfl, rfl⟩
    exact ⟨h1.1, by omega, h1.2⟩
  · intro pt ht
    have h1 : pt.nTargetTimespan = 60 ∧ pt.nTargetSpacing = 60 := by
      obtain ⟨pm, found, -, -, -, rfl⟩ := CTestNetParams_ok env fuel k base pt ht
      exact ⟨rfl, rfl⟩
    exact ⟨h1.1, by omega, h1.2⟩
  · intro pr hr
    obtain ⟨pt, found, -, -, -, rfl⟩ := CRegTestParams_ok env fuel k base pr hr
    exact ⟨rfl, rfl⟩

/-- C15 at `sampleEnv`: the main and testnet profiles have timespan 60. -/
theorem target_timespan_values_witness :
    CMainParams sampleEnv 0 0 zeroParams = .ok sampleMain ∧
      CTestNetParams sampleEnv 0 0 zeroParams = .ok sampleTestNet ∧
      sampleMain.nTargetTimespan = 60 ∧ sampleTestNet.nTargetTimespan = 60 :=
  ⟨rfl, rfl,
    ((target_timespan_values sampleEnv 0 0 zeroParams).1 sampleMain rfl).1,
    ((target_timespan_values sampleEnv 0 0 zeroParams).2.1 sampleTestNet rfl).1⟩

/-! ## C16: majority thresholds -/

/-- C16. In every completed profile the block-version majority thresholds
satisfy enforce <= reject <= window. For the main profile (8100, 10260, 10800)
and the testnet profile (4320, 5472, 5760) the enforce threshold is 75% and
the reject threshold 95% of the window, and the windows are `1440 * 7.5` and
`1440 * 4` blocks. -/
theorem majority_thresholds (env : Env) (fuel k : Nat) (base : CChainParams) :
    (∀ pm, CMainParams env fuel k base = .ok pm →
      (pm.nEnforceBlockUpgradeMajority = 8100 ∧ pm.nRejectBlockOutdatedMajority = 10260 ∧
        pm.nToCheckBlockUpgradeMajority = 10800) ∧
      (pm.nEnforceBlockUpgradeMajority ≤ pm.nRejectBlockOutdatedMajority ∧
        pm.nRejectBlockOutdatedMajority ≤ pm.nToCheckBlockUpgradeMajority) ∧
      100 * pm.nEnforceBlockUpgradeMajority = 75 * pm.nToCheckBlockUpgradeMajority ∧
      100 * pm.nRejectBlockOutdatedMajority = 95 * pm.nToCheckBlockUpgradeMajority ∧
      10 * pm.nToCheckBlockUpgradeMajority = 1440 * 75) ∧
    (∀ pt, CTestNetParams env fuel k base = .ok pt →
      (pt.nEnforceBlockUpgradeMajority = 4320 ∧ pt.nRejectBlockOutdatedMajority = 5472 ∧
        pt.nToCheckBlockUpgradeMajority = 5760) ∧
      (pt.nEnforceBlockUpgradeMajority ≤ pt.nRejectBlockOutdatedMajority ∧
        pt.nRejectBlockOutdatedMajority ≤ pt.nToCheckBlockUpgradeMajority) ∧
      100 * pt.nEnforceBlockUpgradeMajority = 75 * pt.nToCheckBlockUpgradeMajority ∧
      100 * pt.nRejectBlockOutdatedMajority = 95 * pt.nToCheckBlockUpgradeMajority ∧
      pt.nToCheckBlockUpgradeMajority = 1440 * 4) ∧
    (∀ pr, CRegTestParams env fuel k base = .ok pr →
      (pr.nEnforceBlockUpgradeMajority = 750 ∧ pr.nRejectBlockOutdatedMajority = 950 ∧
        pr.nToCheckBlockUpgradeMajority = 1000) ∧
      pr.nEnforceBlockUpgradeMajority ≤ pr.nRejectBlockOutdatedMajority ∧
      pr.nRejectBlockOutdatedMajority ≤ pr.nToCheckBlockUpgradeMajority) := by
  refine ⟨?_, ?_, ?_⟩
  · intro pm hm
    have hv : pm.nEnforceBlockUpgradeMajority = 8100 ∧
        pm.nRejectBlockOutdatedMajority = 10260 ∧ pm.nToCheckBlockUpgradeMajority = 10800 := by
      obtain ⟨found, -, -, -, rfl⟩ := CMainParams_ok env fuel k base pm hm
      exact ⟨rfl, rfl, rfl⟩
    obtain ⟨h1, h2, h3⟩ := hv
    exact ⟨⟨h1, h2, h3⟩, ⟨by omega, by omega⟩, by omega, by omega, by omega⟩
  · intro pt ht
    have hv : pt.nEnforceBlockUpgradeMajority = 4320 ∧
        pt.nRejectBlockOutdatedMajority = 5472 ∧ pt.nToCheckBlockUpgradeMajority = 5760 := by
      obtain ⟨pm, found, -, -, -, rfl⟩ := CTestNetParams_ok env fuel k base pt ht
      exact ⟨rfl, rfl, rfl⟩
    obtain ⟨h1, h2, h3⟩ := hv
    exact ⟨⟨h1, h2, h3⟩, ⟨by omega, by omega⟩, by omega, by omega, by omega⟩
  · intro pr hr
    have hv : pr.nEnforceBlockUpgradeMajority = 750 ∧
        pr.nRejectBlockOutdatedMajority = 950 ∧ pr.nToCheckBlockUpgradeMajority = 1000 := by
      obtain ⟨pt, found, -, -, -, rfl⟩ := CRegTestParams_ok env fuel k base pr hr
      exact ⟨rfl, rfl, rfl⟩
    obtain ⟨h1, h2, h3⟩ := hv
    exact ⟨⟨h1, h2, h3⟩, by omega, by omega⟩

/-- C16 at `sampleEnv`. -/
theorem majority_thresholds_witness :
    CMainParams sampleEnv 0 0 zeroParams = .ok sampleMain ∧
      CRegTestParams sampleEnv 0 0 zeroParams = .ok sampleRegTest ∧
      100 * sampleMain.nEnforceBlockUpgradeMajority
        = 75 * sampleMain.nToCheckBlockUpgradeMajority ∧
      sampleRegTest.nEnforceBlockUpgradeMajority ≤ sampleRegTest.nRejectBlockOutdatedMajority :=
  ⟨rfl, rfl,
    ((majority_thresholds sampleEnv 0 0 zeroParams).1 sampleMain rfl).2.2.1,
    ((majority_thresholds sampleEnv 0 0 zeroParams).2.2 sampleRegTest rfl).2.1⟩

/-! ## C17: the genesis checkpoint -/

/-- C17. For each network the table answered by `Checkpoints()` of a
completed profile has an entry at height 0 with the expected genesis hash
that the constructor asserts, and no other entry at height 0, so the genesis
hash of the profile passes the check against its own table at height 0. -/
theorem genesis_passes_checkpoint (env : Env) (fuel k : Nat) (base : CChainParams) :
    (∀ pm, CMainParams env fuel k base = .ok pm →
      pm.Checkpoints = data ∧ (0, hashGenesisMain) ∈ pm.Checkpoints.mapCheckpoints ∧
        (0, pm.hashGenesisBlock) ∈ pm.Checkpoints.mapCheckpoints ∧
        (∀ h, (0, h) ∈ pm.Checkpoints.mapCheckpoints → h = pm.hashGenesisBlock) ∧
        checkpointVerify pm.Checkpoints.mapCheckpoints 0 pm.hashGenesisBlock = true) ∧
    (∀ pt, CTestNetParams env fuel k base = .ok pt →
      pt.Checkpoints = dataTestnet ∧
        (0, hashGenesisTestnet) ∈ pt.Checkpoints.mapCheckpoints ∧
        (0, pt.hashGenesisBlock) ∈ pt.Checkpoints.mapCheckpoints ∧
        (∀ h, (0, h) ∈ pt.Checkpoints.mapCheckpoints → h = pt.hashGenesisBlock) ∧
        checkpointVerify pt.Checkpoints.mapCheckpoints 0 pt.hashGenesisBlock = true) ∧
    (∀ pr, CRegTestParams env fuel k base = .ok pr →
      pr.Checkpoints = dataRegtest ∧
        (0, hashGenesisRegtest) ∈ pr.Checkpoints.mapCheckpoints ∧
        (0, pr.hashGenesisBlock) ∈ pr.Checkpoints.mapCheckpoints ∧
        (∀ h, (0, h) ∈ pr.Checkpoints.mapCheckpoints → h = pr.hashGenesisBlock) ∧
        checkpointVerify pr.Checkpoints.mapCheckpoints 0 pr.hashGenesisBlock = true) := by
  refine ⟨?_, ?_, ?_⟩
  · intro pm hm
    have hh : pm.hashGenesisBlock = hashGenesisMain :=
      (genesis_facts_main env fuel k base pm hm).2.1
    have hc : pm.Checkpoints = data := by
      obtain ⟨found, -, -, -, rfl⟩ := CMainParams_ok env fuel k base pm hm
      rfl
    rw [hh, hc]
    refine ⟨rfl, by decide, by decide, ?_, by decide⟩
    intro h hmem
    simp [data, mapCheckpoints] at hmem
    rw [hmem]
    rfl
  · intro pt ht
    have hh : pt.hashGenesisBlock = hashGenesisTestnet :=
      (genesis_facts_testnet env fuel k base pt ht).2.1
    have hc : pt.Checkpoints = dataTestnet := by
      obtain ⟨pm, found, -, -, -, rfl⟩ := CTestNetParams_ok env fuel k base pt ht
      rfl
    rw [hh, hc]
    refine ⟨rfl, by decide, by decide, ?_, by decide⟩
    intro h hmem
    simp [dataTestnet, mapCheckpointsTestnet] at hmem
    rw [hmem]
    rfl
  · intro pr hr
    have hh : pr.hashGenesisBlock = hashGenesisRegtest :=
      (genesis_facts_regtest env fuel k base pr hr).2.1
    have hc : pr.Checkpoints = dataRegtest := by
      obtain ⟨pt, found, -, -, -, rfl⟩ := CRegTestParams_ok env fuel k base pr hr
      rfl
    rw [hh, hc]
    refine ⟨rfl, by decide, by decide, ?_, by decide⟩
    intro h hmem
    simp [dataRegtest, mapCheckpointsRegtest] at hmem
    rw [hmem]
    rfl

/-- C17 at `sampleEnv`. -/
theorem genesis_passes_checkpoint_witness :
    CMainParams sampleEnv 0 0 zeroParams = .ok sampleMain ∧
      CRegTestParams sampleEnv 0 0 zeroParams = .ok sampleRegTest ∧
      (0, sampleMain.hashGenesisBlock) ∈ sampleMain.Checkpoints.mapCheckpoints ∧
      checkpointVerify sampleRegTest.Checkpoints.mapCheckpoints 0 sampleRegTest.hashGenesisBlock
        = true :=
  ⟨rfl, rfl,
    ((genesis_passes_checkpoint sampleEnv 0 0 zeroParams).1 sampleMain rfl).2.2.1,
    ((genesis_passes_checkpoint sampleEnv 0 0 zeroParams).2.2 sampleRegTest rfl).2.2.2.2⟩

/-! ## C18: the expected hashes against the decoded targets -/

theorem genesis_nBits (env : Env) (fuel k : Nat) (base : CChainParams) :
    (∀ pm, CMainParams env fuel k base = .ok pm → pm.genesis.nBits = 0x1e0ffff0) ∧
    (∀ pt, CTestNetParams env fuel k base = .ok pt → pt.genesis.nBits = 0x1e0ffff0) ∧
    (∀ pr, CRegTestParams env fuel k base = .ok pr → pr.genesis.nBits = 0x207fffff) := by
  have hmain : ∀ pm, CMainParams env fuel k base = .ok pm → pm.genesis.nBits = 0x1e0ffff0 := by
    intro pm hm
    obtain ⟨found, hs, -, -, rfl⟩ := CMainParams_ok env fuel k base pm hm
    exact (searchGenesis_same env _ _ _ _ hs).2.2.2.1
  have htest : ∀ pt, CTestNetParams env fuel k base = .ok pt →
      pt.genesis.nBits = 0x1e0ffff0 := by
    intro pt ht
    obtain ⟨pm, found, hm, hs, -, rfl⟩ := CTestNetParams_ok env fuel k base pt ht
    exact ((searchGenesis_same env _ _ _ _ hs).2.2.2.1).trans (hmain pm hm)
  refine ⟨hmain, htest, ?_⟩
  intro pr hr
  obtain ⟨pt, found, -, hs, -, rfl⟩ := CRegTestParams_ok env fuel k base pr hr
  exact (searchGenesis_same env _ _ _ _ hs).2.2.2.1

theorem bnProofOfWorkLimit_value (env : Env) (fuel k : Nat) (base : CChainParams) :
    (∀ pm, CMainParams env fuel k base = .ok pm → pm.bnProofOfWorkLimit = 2 ^ 255 - 1) ∧
    (∀ pt, CTestNetParams env fuel k base = .ok pt → pt.bnProofOfWorkLimit = 2 ^ 255 - 1) ∧
    (∀ pr, CRegTestParams env fuel k base = .ok pr → pr.bnProofOfWorkLimit = 2 ^ 255 - 1) := by
  have hv : (2 ^ 256 - 1 - 0) / 2 ^ 1 = 2 ^ 255 - 1 := by decide
  refine ⟨?_, ?_, ?_⟩
  · intro pm hm
    obtain ⟨found, -, -, -, rfl⟩ := CMainParams_ok env fuel k base pm hm
    exact hv
  · intro pt ht
    obtain ⟨pm, found, hm, -, -, rfl⟩ := CTestNetParams_ok env fuel k base pt ht
    obtain ⟨fm, -, -, -, rfl⟩ := CMainParams_ok env fuel k base pm hm
    exact hv
  · intro pr hr
    obtain ⟨pt, found, -, -, -, rfl⟩ := CRegTestParams_ok env fuel k base pr hr
    exact hv

/-- C18. Each expected genesis hash, a number below `2 ^ 256`, is at most the
target that the compact bits of its network decode to (`0x1e0ffff0` for main
and testnet, decoding to `0x0ffff0 * 2 ^ 216`, and `0x207fffff` for regtest,
decoding to `0x7fffff * 2 ^ 232`), and each of these targets is at most the
proof-of-work limit `~0 >> 1 = 2 ^ 255 - 1`. So when the decoder of the
environment is the modelled one, the genesis hash of every completed profile
is at most the target of its genesis bits, which is at most the
proof-of-work limit of the profile. -/
theorem expected_hashes_meet_targets :
    (hashGenesisMain < 2 ^ 256 ∧ hashGenesisTestnet < 2 ^ 256 ∧
      hashGenesisRegtest < 2 ^ 256) ∧
    (SetCompact 0x1e0ffff0 = 0x0ffff0 * 2 ^ 216 ∧ SetCompact 0x207fffff = 0x7fffff * 2 ^ 232) ∧
    (hashGenesisMain ≤ SetCompact 0x1e0ffff0 ∧ hashGenesisTestnet ≤ SetCompact 0x1e0ffff0 ∧
      hashGenesisRegtest ≤ SetCompact 0x207fffff) ∧
    (SetCompact 0x1e0ffff0 ≤ 2 ^ 255 - 1 ∧ SetCompact 0x207fffff ≤ 2 ^ 255 - 1) ∧
    (∀ (env : Env) (fuel k : Nat) (base : CChainParams), env.SetCompact = SetCompact →
      (∀ pm, CMainParams env fuel k base = .ok pm →
        pm.hashGenesisBlock ≤ env.SetCompact pm.genesis.nBits ∧
          env.SetCompact pm.genesis.nBits ≤ pm.bnProofOfWorkLimit) ∧
      (∀ pt, CTestNetParams env fuel k base = .ok pt →
        pt.hashGenesisBlock ≤ env.SetCompact pt.genesis.nBits ∧
          env.SetCompact pt.genesis.nBits ≤ pt.bnProofOfWorkLimit) ∧
      (∀ pr, CRegTestParams env fuel k base = .ok pr →
        pr.hashGenesisBlock ≤ env.SetCompact pr.genesis.nBits ∧
          env.SetCompact pr.genesis.nBits ≤ pr.bnProofOfWorkLimit)) := by
  have h1 : hashGenesisMain ≤ SetCompact 0x1e0ffff0 := by decide
  have h2 : hashGenesisTestnet ≤ SetCompact 0x1e0ffff0 := by decide
  have h3 : hashGenesisRegtest ≤ SetCompact 0x207fffff := by decide
  have l1 : SetCompact 0x1e0ffff0 ≤ 2 ^ 255 - 1 := by decide
  have l2 : SetCompact 0x207fffff ≤ 2 ^ 255 - 1 := by decide
  refine ⟨⟨by decide, by decide, by decide⟩, ⟨by decide, by decide⟩, ⟨h1, h2, h3⟩, ⟨l1, l2⟩, ?_⟩
  intro env fuel k base hcodec
  obtain ⟨b1, b2, b3⟩ := genesis_nBits env fuel k base
  obtain ⟨w1, w2, w3⟩ := bnProofOfWorkLimit_value env fuel k base
  refine ⟨?_, ?_, ?_⟩
  · intro pm hm
    rw [hcodec, b1 pm hm, w1 pm hm, (genesis_facts_main env fuel k base pm hm).2.1]
    exact ⟨h1, l1⟩
  · intro pt ht
    rw [hcodec, b2 pt ht, w2 pt ht, (genesis_facts_testnet env fuel k base pt ht).2.1]
    exact ⟨h2, l1⟩
  · intro pr hr
    rw [hcodec, b3 pr hr, w3 pr hr, (genesis_facts_regtest env fuel k base pr hr).2.1]
    exact ⟨h3, l2⟩

/-- C18 at `codecEnv`, whose decoder is the modelled one. -/
theorem expected_hashes_meet_targets_witness :
    codecEnv.SetCompact = SetCompact ∧
      CMainParams codecEnv 0 0 zeroParams = .ok sampleMain ∧
      CRegTestParams codecEnv 0 0 zeroParams = .ok sampleRegTest ∧
      sampleMain.hashGenesisBlock ≤ codecEnv.SetCompact sampleMain.genesis.nBits ∧
      codecEnv.SetCompact sampleRegTest.genesis.nBits ≤ sampleRegTest.bnProofOfWorkLimit :=
  ⟨rfl, rfl, rfl,
    ((expected_hashes_meet_targets.2.2.2.2 codecEnv 0 0 zeroParams rfl).1 sampleMain rfl).1,
    ((expected_hashes_meet_targets.2.2.2.2 codecEnv 0 0 zeroParams rfl).2.2 sampleRegTest
      rfl).2⟩

/-! ## C19: the profiles are told apart -/

/-- C19. The three completed profiles have the magic bytes `f8 8e a6 90`,
`c1 aa b2 e9` and `c6 b3 97 d1`, the default ports 59682, 59684 and 51476,
and the three expected genesis hashes as their genesis hashes; the magic
values, the ports and the genesis hashes are each pairwise distinct. -/
theorem profiles_pairwise_distinct (env : Env) (fuel k : Nat) (base pm pt pr : CChainParams)
    (hm : CMainParams env fuel k base = .ok pm) (ht : CTestNetParams env fuel k base = .ok pt)
    (hr : CRegTestParams env fuel k base = .ok pr) :
    (pm.pchMessageStart = [0xf8, 0x8e, 0xa6, 0x90] ∧
      pt.pchMessageStart = [0xc1, 0xaa, 0xb2, 0xe9] ∧
      pr.pchMessageStart = [0xc6, 0xb3, 0x97, 0xd1]) ∧
    (pm.pchMessageStart ≠ pt.pchMessageStart ∧ pm.pchMessageStart ≠ pr.pchMessageStart ∧
      pt.pchMessageStart ≠ pr.pchMessageStart) ∧
    (pm.nDefaultPort = 59682 ∧ pt.nDefaultPort = 59684 ∧ pr.nDefaultPort = 51476) ∧
    (pm.nDefaultPort ≠ pt.nDefaultPort ∧ pm.nDefaultPort ≠ pr.nDefaultPort ∧
      pt.nDefaultPort ≠ pr.nDefaultPort) ∧
    (pm.hashGenesisBlock = hashGenesisMain ∧ pt.hashGenesisBlock = hashGenesisTestnet ∧
      pr.hashGenesisBlock = hashGenesisRegtest) ∧
    (pm.hashGenesisBlock ≠ pt.hashGenesisBlock ∧ pm.hashGenesisBlock ≠ pr.hashGenesisBlock ∧
      pt.hashGenesisBlock ≠ pr.hashGenesisBlock) := by
  have g1 := (genesis_facts_main env fuel k base pm hm).2.1
  have g2 := (genesis_facts_testnet env fuel k base pt ht).2.1
  have g3 := (genesis_facts_regtest env fuel k base pr hr).2.1
  have m1 : pm.pchMessageStart = [0xf8, 0x8e, 0xa6, 0x90] ∧ pm.nDefaultPort = 59682 := by
    obtain ⟨found, -, -, -, rfl⟩ := CMainParams_ok env fuel k base pm hm
    exact ⟨rfl, rfl⟩
  have m2 : pt.pchMessageStart = [0xc1, 0xaa, 0xb2, 0xe9] ∧ pt.nDefaultPort = 59684 := by
    obtain ⟨p1, found, -, -, -, rfl⟩ := CTestNetParams_ok env fuel k base pt ht
    exact ⟨rfl, rfl⟩
  have m3 : pr.pchMessageStart = [0xc6, 0xb3, 0x97, 0xd1] ∧ pr.nDefaultPort = 51476 := by
    obtain ⟨p1, found, -, -, -, rfl⟩ := CRegTestParams_ok env fuel k base pr hr
    exact ⟨rfl, rfl⟩
  refine ⟨⟨m1.1, m2.1, m3.1⟩, ?_, ⟨m1.2, m2.2, m3.2⟩, ?_, ⟨g1, g2, g3⟩, ?_⟩
  · rw [m1.1, m2.1, m3.1]
    exact ⟨by decide, by decide, by decide⟩
  · rw [m1.2, m2.2, m3.2]
    exact ⟨by decide, by decide, by decide⟩
  · rw [g1, g2, g3]
    exact ⟨by decide, by decide, by decide⟩

/-- C19 at `sampleEnv`. -/
theorem profiles_pairwise_distinct_witness :
    CMainParams sampleEnv 0 0 zeroParams = .ok sampleMain ∧
      CTestNetParams sampleEnv 0 0 zeroParams = .ok sampleTestNet ∧
      CRegTestParams sampleEnv 0 0 zeroParams = .ok sampleRegTest ∧
      sampleMain.pchMessageStart ≠ sampleTestNet.pchMessageStart ∧
      sampleTestNet.nDefaultPort ≠ sampleRegTest.nDefaultPort ∧
      sampleMain.hashGenesisBlock ≠ sampleRegTest.hashGenesisBlock :=
  ⟨rfl, rfl, rfl,
    (profiles_pairwise_distinct sampleEnv 0 0 zeroParams sampleMain sampleTestNet sampleRegTest
      rfl rfl rfl).2.1.1,
    (profiles_pairwise_distinct sampleEnv 0 0 zeroParams sampleMain sampleTestNet sampleRegTest
      rfl rfl rfl).2.2.2.1.2.2,
    (profiles_pairwise_distinct sampleEnv 0 0 zeroParams sampleMain sampleTestNet sampleRegTest
      rfl rfl rfl).2.2.2.2.2.2.1⟩

/-! ## C10: the hash of the block a search returns -/

/-- C10. Whenever the search block returns, the search skipped or its loop
ended, the hash of the block it leaves is at most the target decoded from
the bits of that block. For any decoder this holds when the loop was entered
and when the expected hash is itself at most the target of the template.
With the modelled decoder it holds, for every hash function, for every
template that carries the bits of a network (`0x1e0ffff0` for main and
testnet, `0x207fffff` for regtest) and is compared with the expected hash of
that network, as the three constructors do with their own templates. -/
theorem returned_hash_below_target (env : Env) (fuel : Nat) (genesis : CBlock)
    (r : CBlock × Nat) :
    (∀ expected, env.GetHash genesis ≠ expected →
      searchGenesis env expected fuel genesis = .ok r →
      env.GetHash r.1 ≤ env.SetCompact r.1.nBits) ∧
    (∀ expected, expected ≤ env.SetCompact genesis.nBits →
      searchGenesis env expected fuel genesis = .ok r →
      env.GetHash r.1 ≤ env.SetCompact r.1.nBits) ∧
    (env.SetCompact = SetCompact →
      (genesis.nBits = 0x1e0ffff0 →
        searchGenesis env hashGenesisMain fuel genesis = .ok r →
        env.GetHash r.1 ≤ env.SetCompact r.1.nBits) ∧
      (genesis.nBits = 0x1e0ffff0 →
        searchGenesis env hashGenesisTestnet fuel genesis = .ok r →
        env.GetHash r.1 ≤ env.SetCompact r.1.nBits) ∧
      (genesis.nBits = 0x207fffff →
        searchGenesis env hashGenesisRegtest fuel genesis = .ok r →
        env.GetHash r.1 ≤ env.SetCompact r.1.nBits) ∧
      (∀ base,
        searchGenesis env hashGenesisMain fuel (CMainParams_template env base).genesis
          = .ok r →
        env.GetHash r.1 ≤ env.SetCompact r.1.nBits) ∧
      (∀ k base pm, CMainParams env fuel k base = .ok pm →
        searchGenesis env hashGenesisTestnet fuel (CTestNetParams_template env pm).genesis
          = .ok r →
        env.GetHash r.1 ≤ env.SetCompact r.1.nBits) ∧
      (∀ pt,
        searchGenesis env hashGenesisRegtest fuel (CRegTestParams_template pt).genesis
          = .ok r →
        env.GetHash r.1 ≤ env.SetCompact r.1.nBits)) := by
  have h1 : hashGenesisMain ≤ SetCompact 0x1e0ffff0 := by decide
  have h2 : hashGenesisTestnet ≤ SetCompact 0x1e0ffff0 := by decide
  have h3 : hashGenesisRegtest ≤ SetCompact 0x207fffff := by decide
  have below : ∀ (expected : Nat) (g : CBlock), expected ≤ env.SetCompact g.nBits →
      searchGenesis env expected fuel g = .ok r →
      env.GetHash r.1 ≤ env.SetCompact r.1.nBits :=
    fun expected g hle h => (searchGenesis_hash env expected fuel g r h).2.2 hle
  refine ⟨?_, fun expected hle h => below expected genesis hle h, ?_⟩
  · intro expected hne h
    exact (searchGenesis_hash env expected fuel genesis r h).2.1 hne
  · intro hcodec
    refine ⟨?_, ?_, ?_, ?_, ?_, ?_⟩
    · intro hb h
      exact below _ genesis (by rw [hcodec, hb]; exact h1) h
    · intro hb h
      exact below _ genesis (by rw [hcodec, hb]; exact h2) h
    · intro hb h
      exact below _ genesis (by rw [hcodec, hb]; exact h3) h
    · intro base h
      refine below _ _ ?_ h
      rw [hcodec]
      exact h1
    · intro k base pm hm h
      refine below _ _ ?_ h
      have hb : (CTestNetParams_template env pm).genesis.nBits = 0x1e0ffff0 :=
        (genesis_nBits env fuel k base).1 pm hm
      rw [hcodec, hb]
      exact h2
    · intro pt h
      refine below _ _ ?_ h
      rw [hcodec]
      exact h3

/-- C10 at `twoPassCodecEnv`, where the loop makes two passes from the main
template, and at `codecEnv`, where the main template has the expected hash
and the search is skipped. -/
theorem returned_hash_below_target_witness :
    twoPassCodecEnv.SetCompact = SetCompact ∧
      searchGenesis twoPassCodecEnv hashGenesisMain 2
          (CMainParams_template twoPassCodecEnv zeroParams).genesis
        = .ok ({ (CMainParams_template twoPassCodecEnv zeroParams).genesis with
            nNonce := 28141689 }, 2) ∧
      twoPassCodecEnv.GetHash
          { (CMainParams_template twoPassCodecEnv zeroParams).genesis with nNonce := 28141689 }
        ≤ twoPassCodecEnv.SetCompact 0x1e0ffff0 ∧
      searchGenesis codecEnv hashGenesisMain 0 (CMainParams_template codecEnv zeroParams).genesis
        = .ok ((CMainParams_template codecEnv zeroParams).genesis, 0) ∧
      codecEnv.GetHash (CMainParams_template codecEnv zeroParams).genesis
        ≤ codecEnv.SetCompact 0x1e0ffff0 :=
  ⟨rfl, rfl,
    ((returned_hash_below_target twoPassCodecEnv 2
      (CMainParams_template twoPassCodecEnv zeroParams).genesis
      ({ (CMainParams_template twoPassCodecEnv zeroParams).genesis with nNonce := 28141689 },
        2)).2.2 rfl).2.2.2.1 zeroParams rfl,
    rfl,
    ((returned_hash_below_target codecEnv 0 (CMainParams_template codecEnv zeroParams).genesis
      ((CMainParams_template codecEnv zeroParams).genesis, 0)).2.2 rfl).1 rfl rfl⟩

end PRCY
